import Mathlib

/- Verification development for the routing and configuration layers of the
gluetun repository.  The Go source is shallowly embedded: `net/netip.Addr`
values become a structure of two 64-bit words plus a representation tag,
pure Go functions become Lean functions, and the heap used by the settings
code (Go pointers and slices) becomes an explicit store. -/

set_option maxHeartbeats 1000000

namespace Gluetun

/-- Representation tag of a `net/netip.Addr`: `z0` is the zero (invalid)
address, `z4` an IPv4 address, `z6` an IPv6 address (a V4-mapped-V6
address carries `z6`).  Zones are irrelevant to the verified code and are
not modelled. -/
inductive Zone where
  | z0
  | z4
  | z6
deriving DecidableEq

/-- Embedding of `net/netip.Addr`: the 128-bit address as two 64-bit words
`hi`/`lo` (most significant first, network byte order) plus the
representation tag.  As in the Go implementation, an IPv4 address is stored
in its 4-in-6 bit pattern with tag `z4`. -/
structure Addr where
  hi : Nat
  lo : Nat
  z : Zone
deriving DecidableEq

/-- The zero `netip.Addr` value. -/
def zeroAddr : Addr := ⟨0, 0, Zone.z0⟩

/-- `netip.Addr.Is4`: true only for the `z4` representation; false for the
zero address and for V4-mapped-V6 addresses. -/
def Addr.Is4 (ip : Addr) : Bool := ip.z == Zone.z4

/-- `netip.Addr.Is6`: true for any IPv6 representation, including
V4-mapped-V6 addresses; false for the zero address and bare IPv4. -/
def Addr.Is6 (ip : Addr) : Bool := ip.z != Zone.z0 && ip.z != Zone.z4

/-- `netip.Addr.IsValid`: the address is not the zero `Addr`. -/
def Addr.IsValid (ip : Addr) : Bool := ip.z != Zone.z0

/-- `netip.Addr.Is4In6`: an IPv6 representation whose bits carry the
`::ffff:0:0/96` IPv4-mapped prefix. -/
def Addr.Is4In6 (ip : Addr) : Bool :=
  ip.Is6 && ip.hi == 0 && ip.lo >>> 32 == 0xffff

/-- `netip.Addr.v4`: the i-th byte of an IPv4 address (stored in the low
32 bits of `lo`).  The `% 256` is the Go `uint8` conversion. -/
def Addr.v4 (ip : Addr) (i : Nat) : Nat := (ip.lo >>> ((3 - i) * 8)) % 256

/-- `netip.Addr.v6`: the i-th byte of the 16-byte address. -/
def Addr.v6 (ip : Addr) (i : Nat) : Nat :=
  if i < 8 then (ip.hi >>> ((7 - i) * 8)) % 256
  else (ip.lo >>> ((15 - i) * 8)) % 256

/-- `netip.Addr.v6u16`: the i-th 16-bit group of the address. -/
def Addr.v6u16 (ip : Addr) (i : Nat) : Nat :=
  if i < 4 then (ip.hi >>> ((3 - i) * 16)) % 65536
  else (ip.lo >>> ((7 - i) * 16)) % 65536

/-- `netip.Addr.Unmap`: strips the V4-mapped-V6 wrapper by retagging the
address as `z4`, leaving the 128 bits unchanged; any other address is
returned unchanged. -/
def Addr.Unmap (ip : Addr) : Addr :=
  if ip.Is4In6 then { ip with z := Zone.z4 } else ip

/-- `netip.AddrFrom4`: builds a `z4` address from four bytes, stored in
the 4-in-6 bit pattern as in the Go implementation. -/
def AddrFrom4 (b0 b1 b2 b3 : Nat) : Addr :=
  ⟨0, 0xffff00000000 ||| (b0 % 256) <<< 24 ||| (b1 % 256) <<< 16 |||
      (b2 % 256) <<< 8 ||| (b3 % 256), Zone.z4⟩

/-- Helper assembling eight bytes into a 64-bit word, most significant
byte first. -/
def bytesToU64 (b0 b1 b2 b3 b4 b5 b6 b7 : Nat) : Nat :=
  (b0 % 256) <<< 56 ||| (b1 % 256) <<< 48 ||| (b2 % 256) <<< 40 |||
  (b3 % 256) <<< 32 ||| (b4 % 256) <<< 24 ||| (b5 % 256) <<< 16 |||
  (b6 % 256) <<< 8 ||| (b7 % 256)

/-- `netip.AddrFrom16`: builds a `z6` address from sixteen bytes. -/
def AddrFrom16 (b0 b1 b2 b3 b4 b5 b6 b7 b8 b9 b10 b11 b12 b13 b14 b15 : Nat) : Addr :=
  ⟨bytesToU64 b0 b1 b2 b3 b4 b5 b6 b7, bytesToU64 b8 b9 b10 b11 b12 b13 b14 b15, Zone.z6⟩

/-- `netip.Addr.IsPrivate` (Go standard library): RFC 1918 ranges for the
`z4` representation, RFC 4193 `fc00::/7` for IPv6 representations. -/
def Addr.IsPrivate (ip : Addr) : Bool :=
  if ip.Is4 then
    ip.v4 0 == 10 ||
    (ip.v4 0 == 172 && ip.v4 1 &&& 0xf0 == 16) ||
    (ip.v4 0 == 192 && ip.v4 1 == 168)
  else if ip.Is6 then
    ip.v6 0 &&& 0xfe == 0xfc
  else false

/-- `netip.Addr.IsLoopback` (Go standard library): `127.0.0.0/8` for the
`z4` representation, `::1` for IPv6 representations. -/
def Addr.IsLoopback (ip : Addr) : Bool :=
  if ip.Is4 then ip.v4 0 == 127
  else if ip.Is6 then ip.hi == 0 && ip.lo == 1
  else false

/-- `netip.Addr.IsLinkLocalUnicast` (Go standard library):
`169.254.0.0/16` for the `z4` representation, `fe80::/10` for IPv6
representations. -/
def Addr.IsLinkLocalUnicast (ip : Addr) : Bool :=
  if ip.Is4 then ip.v4 0 == 169 && ip.v4 1 == 254
  else if ip.Is6 then ip.v6u16 0 &&& 0xffc0 == 0xfe80
  else false

/-- `netip.Addr.IsLinkLocalMulticast` (Go standard library):
`224.0.0.0/24` for the `z4` representation, link-local-scope multicast
(first byte `0xff`, scope nibble `2`) for IPv6 representations. -/
def Addr.IsLinkLocalMulticast (ip : Addr) : Bool :=
  if ip.Is4 then ip.v4 0 == 224 && ip.v4 1 == 0 && ip.v4 2 == 0
  else if ip.Is6 then ip.v6u16 0 &&& 0xff0f == 0xff02
  else false

/-- Modelled from the spec: the `internal/netlink` family constant for
IPv4 (the package only re-exports the kernel constant `AF_INET = 2`;
only its distinctness from `FAMILY_V6` matters here). -/
def FAMILY_V4 : Nat := 2

/-- Modelled from the spec: the `internal/netlink` family constant for
IPv6 (`AF_INET6 = 10`). -/
def FAMILY_V6 : Nat := 10

/-- `routing.IPIsPrivate` from the source: private, loopback, link-local
unicast or link-local multicast. -/
def IPIsPrivate (ip : Addr) : Bool :=
  ip.IsPrivate || ip.IsLoopback || ip.IsLinkLocalUnicast || ip.IsLinkLocalMulticast

/-- `routing.ipMatchesFamily` from the source. -/
def ipMatchesFamily (ip : Addr) (family : Nat) : Bool :=
  (family == FAMILY_V6 && ip.Is6) ||
  (family == FAMILY_V4 && (ip.Is4 || ip.Is4In6))

/-- The spec's notion of a genuine V6 address: an IPv6 address that is not
a V4-mapped-V6 address. -/
def genuineV6 (ip : Addr) : Prop := ip.Is6 = true ∧ ip.Is4In6 = false

/-- The family-matching predicate exactly as claimed by the spec: V6
matches only genuine V6 addresses, V4 matches bare V4 and V4-mapped-V6
addresses. -/
def claimedMatchesFamily (ip : Addr) (family : Nat) : Bool :=
  (family == FAMILY_V6 && ip.Is6 && !ip.Is4In6) ||
  (family == FAMILY_V4 && (ip.Is4 || ip.Is4In6))

/-- The amended family-matching predicate: V6 matches any V6 address,
genuine or V4-mapped; V4 matches bare V4 and V4-mapped-V6 addresses. -/
def amendedMatchesFamily (ip : Addr) (family : Nat) : Prop :=
  (family = FAMILY_V6 ∧ (genuineV6 ip ∨ ip.Is4In6 = true)) ∨
  (family = FAMILY_V4 ∧ (ip.Is4 = true ∨ ip.Is4In6 = true))

/-- The V4-mapped-V6 form of `1.2.3.4`, i.e. `::ffff:1.2.3.4`, used as a
concrete test address. -/
def mappedExample : Addr := AddrFrom16 0 0 0 0 0 0 0 0 0 0 255 255 1 2 3 4

/-- Spec predicate: private-use addresses per standard addressing rules
(RFC 1918 for V4, RFC 4193 `fc00::/7` for V6), keyed on the address's own
family representation. -/
def specPrivate (ip : Addr) : Prop :=
  (ip.Is4 = true ∧ (ip.v4 0 = 10 ∨ (ip.v4 0 = 172 ∧ 16 ≤ ip.v4 1 ∧ ip.v4 1 ≤ 31) ∨
    (ip.v4 0 = 192 ∧ ip.v4 1 = 168))) ∨
  (ip.Is6 = true ∧ (ip.v6 0 = 252 ∨ ip.v6 0 = 253))

/-- Spec predicate: loopback addresses (`127.0.0.0/8`, `::1`). -/
def specLoopback (ip : Addr) : Prop :=
  (ip.Is4 = true ∧ ip.v4 0 = 127) ∨
  (ip.Is6 = true ∧ ip.hi = 0 ∧ ip.lo = 1)

/-- Spec predicate: link-local unicast addresses (`169.254.0.0/16`,
`fe80::/10`). -/
def specLinkLocalUnicast (ip : Addr) : Prop :=
  (ip.Is4 = true ∧ ip.v4 0 = 169 ∧ ip.v4 1 = 254) ∨
  (ip.Is6 = true ∧ ip.v6 0 = 254 ∧ 128 ≤ ip.v6 1 ∧ ip.v6 1 ≤ 191)

/-- Spec predicate: link-local multicast addresses (`224.0.0.0/24`; for V6
the multicast prefix `0xff` with link-local scope nibble `2`). -/
def specLinkLocalMulticast (ip : Addr) : Prop :=
  (ip.Is4 = true ∧ ip.v4 0 = 224 ∧ ip.v4 1 = 0 ∧ ip.v4 2 = 0) ∨
  (ip.Is6 = true ∧ ip.v6 0 = 255 ∧ ip.v6 1 % 16 = 2)

/-- Spec predicate for `IsExcludedFromTunnel`, following the spec's words:
private-use, loopback, link-local unicast or link-local multicast, for
both address families. -/
def specExcludedFromTunnel (ip : Addr) : Prop :=
  specPrivate ip ∨ specLoopback ip ∨ specLinkLocalUnicast ip ∨ specLinkLocalMulticast ip

/-- One entry of the list returned by `iface.Addrs()` as consumed by the
type switch in `assignedIP`: a `*net.IPAddr`, a `*net.IPNet` (each
carrying the `netip.Addr` produced by `netIPToNetipAddress`, a one-line
conversion helper of the routing package), or a value of any other
dynamic type, which the switch skips. -/
inductive NetAddrEntry where
  | ipAddr (ip : Addr)
  | ipNet (ip : Addr)
  | other
deriving DecidableEq

/-- Outcome of the two host-interface queries made by `assignedIP`:
`net.InterfaceByName` failing, `iface.Addrs()` failing, or a successfully
enumerated (possibly empty) address list. -/
inductive IfaceResult where
  | notFound
  | addrsFailed
  | ok (addrs : List NetAddrEntry)
deriving DecidableEq

/-- The three error shapes `assignedIP` can return, with the data each
format string embeds: `"network interface %s not found: %w"`,
`"listing interface %s addresses: %w"`, and
`errInterfaceIPNotFound` wrapped as `"%w: interface %s in %d addresses"`. -/
inductive RoutingErr where
  | interfaceNotFound (name : String)
  | listAddrsFailed (name : String)
  | ipNotFound (name : String) (numAddresses : Nat)
deriving DecidableEq

/-- The interface name embedded in each `assignedIP` error. -/
def RoutingErr.ifaceName : RoutingErr → String
  | .interfaceNotFound n => n
  | .listAddrsFailed n => n
  | .ipNotFound n _ => n

/-- The operation that failed, as identified by the error shape. -/
inductive RoutingOp where
  | lookupInterface
  | listAddresses
  | searchAddress
deriving DecidableEq

/-- Maps each `assignedIP` error to the operation it reports as failed. -/
def RoutingErr.op : RoutingErr → RoutingOp
  | .interfaceNotFound _ => RoutingOp.lookupInterface
  | .listAddrsFailed _ => RoutingOp.listAddresses
  | .ipNotFound _ _ => RoutingOp.searchAddress

/-- The address-list loop of `assignedIP`: the accumulator is the Go `ip`
variable, overwritten by each `IPAddr`/`IPNet` entry before the family
check and left untouched by skipped entries; on a family match the loop
returns the unmapped address, and after the loop the last-written `ip` is
returned together with the wrapped `errInterfaceIPNotFound`. -/
def assignedIPAux (name : String) (family : Nat) (total : Nat) :
    Addr → List NetAddrEntry → Addr × Option RoutingErr
  | ipAcc, [] => (ipAcc, some (RoutingErr.ipNotFound name total))
  | ipAcc, NetAddrEntry.other :: rest => assignedIPAux name family total ipAcc rest
  | _, NetAddrEntry.ipAddr ip :: rest =>
      if ipMatchesFamily ip family then (ip.Unmap, none)
      else assignedIPAux name family total ip rest
  | _, NetAddrEntry.ipNet ip :: rest =>
      if ipMatchesFamily ip family then (ip.Unmap, none)
      else assignedIPAux name family total ip rest

/-- `routing.assignedIP` from the source, as a function of the outcome of
the host-interface queries; it returns the Go pair `(ip, err)`. -/
def assignedIP (name : String) (family : Nat) (res : IfaceResult) :
    Addr × Option RoutingErr :=
  match res with
  | IfaceResult.notFound => (zeroAddr, some (RoutingErr.interfaceNotFound name))
  | IfaceResult.addrsFailed => (zeroAddr, some (RoutingErr.listAddrsFailed name))
  | IfaceResult.ok addrs => assignedIPAux name family addrs.length zeroAddr addrs

/-- The address carried by an enumerated entry (`none` for entries the
type switch skips). -/
def entryAddr : NetAddrEntry → Option Addr
  | NetAddrEntry.ipAddr ip => some ip
  | NetAddrEntry.ipNet ip => some ip
  | NetAddrEntry.other => none

/-- The first enumerated address whose family matches, in enumeration
order. -/
def firstFamilyMatch (family : Nat) (addrs : List NetAddrEntry) : Option Addr :=
  (addrs.filterMap entryAddr).find? (fun ip => ipMatchesFamily ip family)

/-- Conclusion of claim C3: with family V4, when the first family-matching
entry is a V4-mapped-V6 address `m`, the call succeeds with `m.Unmap`,
which keeps the 128 bits of `m` (bit-identical), is a bare V4 address and
is not a V4-mapped-V6 representation. -/
def C3Conclusion (name : String) (addrs : List NetAddrEntry) (m : Addr) : Prop :=
  assignedIP name FAMILY_V4 (IfaceResult.ok addrs) = (m.Unmap, none) ∧
  m.Unmap.hi = m.hi ∧ m.Unmap.lo = m.lo ∧
  m.Unmap.Is4 = true ∧ m.Unmap.Is4In6 = false

/-- Conclusion of claim C4: on an enumerated list, success happens exactly
when some enumerated address matches the family; on success the result is
the first matching address (normalized), and otherwise the error is the
wrapped `errInterfaceIPNotFound` carrying the interface name and address
count. -/
def C4Conclusion (name : String) (family : Nat) (addrs : List NetAddrEntry) : Prop :=
  ((assignedIP name family (IfaceResult.ok addrs)).2 = none ↔
    (firstFamilyMatch family addrs).isSome = true) ∧
  (∀ m, firstFamilyMatch family addrs = some m →
    assignedIP name family (IfaceResult.ok addrs) = (m.Unmap, none)) ∧
  (firstFamilyMatch family addrs = none →
    (assignedIP name family (IfaceResult.ok addrs)).2 =
      some (RoutingErr.ipNotFound name addrs.length))

/-- Conclusion of the amended claim C7: every error returned by
`assignedIP` carries the interface name and identifies the attempted
operation (the three failure kinds are mutually distinguishable), though
not the requested address family. -/
def C7Conclusion (name : String) (res : IfaceResult) (e : RoutingErr) : Prop :=
  e.ifaceName = name ∧
  (e.op = RoutingOp.lookupInterface ↔ res = IfaceResult.notFound) ∧
  (e.op = RoutingOp.listAddresses ↔ res = IfaceResult.addrsFailed) ∧
  (e.op = RoutingOp.searchAddress ↔ ∃ l, res = IfaceResult.ok l)

/-- A genuine V6 sample address (`2001:db8::1`) for concrete tests. -/
def v6Example : Addr := AddrFrom16 0x20 0x01 0x0d 0xb8 0 0 0 0 0 0 0 0 0 0 0 1

/-- The V4-mapped-V6 form of `10.0.0.2` for concrete tests. -/
def mappedTen : Addr := AddrFrom16 0 0 0 0 0 0 0 0 0 0 255 255 10 0 0 2

/-- A concrete enumerated address list whose first V4-family match is the
V4-mapped entry `mappedTen`. -/
def exampleAddrList : List NetAddrEntry :=
  [NetAddrEntry.other, NetAddrEntry.ipNet v6Example, NetAddrEntry.ipAddr mappedTen]

/-- A heap cell value: the Go values the OpenVPN settings point to
(`string`, `uint16`, `int`, `[]string`). -/
inductive GoVal where
  | str (s : String)
  | u16 (n : Nat)
  | int (i : Int)
  | strList (l : List String)
deriving DecidableEq

/-- Projection of a cell as a Go `string`. -/
def GoVal.asStr : GoVal → String
  | .str s => s
  | _ => ""

/-- Projection of a cell as a Go `uint16`. -/
def GoVal.asU16 : GoVal → Nat
  | .u16 n => n
  | _ => 0

/-- Projection of a cell as a Go `int`. -/
def GoVal.asInt : GoVal → Int
  | .int i => i
  | _ => 0

/-- Projection of a cell as a Go `[]string` backing array. -/
def GoVal.asStrList : GoVal → List String
  | .strList l => l
  | _ => []

/-- The heap backing Go pointers and slices: a store of cells plus a
bump allocator.  A Go pointer (or slice header) is `Option Nat`: `nil` or
a cell address. -/
structure Heap where
  mem : Nat → GoVal
  next : Nat

/-- Allocation (Go `new`/`make`): returns the fresh address and the heap
extended with the value stored there. -/
def Heap.alloc (h : Heap) (v : GoVal) : Nat × Heap :=
  (h.next, ⟨fun a => if a = h.next then v else h.mem a, h.next + 1⟩)

/-- Assignment through a pointer (Go `*p = v`). -/
def Heap.write (h : Heap) (a : Nat) (v : GoVal) : Heap :=
  ⟨fun a2 => if a2 = a then v else h.mem a2, h.next⟩

/-- Heap `h2` extends `h1`: allocation only moved forward and every cell
already allocated in `h1` is unchanged. -/
def Heap.Extends (h2 h1 : Heap) : Prop :=
  h1.next ≤ h2.next ∧ ∀ a, a < h1.next → h2.mem a = h1.mem a

/-- Modelled from the spec: `helpers.CopyPointer` (the settings helper
package is outside the provided sources): a nil pointer stays nil, any
other pointer gets a freshly allocated cell holding a copy of the
pointed-to value. -/
def CopyPointer (p : Option Nat) (h : Heap) : Option Nat × Heap :=
  match p with
  | none => (none, h)
  | some a =>
      let r := h.alloc (h.mem a)
      (some r.1, r.2)

/-- Modelled from the spec: `helpers.CopySlice` (outside the provided
sources): a nil slice stays nil, any other slice gets a fresh backing
array holding the same elements. -/
def CopySlice (p : Option Nat) (h : Heap) : Option Nat × Heap :=
  match p with
  | none => (none, h)
  | some a =>
      let r := h.alloc (GoVal.strList (h.mem a).asStrList)
      (some r.1, r.2)

/-- Modelled from the spec: `helpers.DefaultPointer` (outside the
provided sources): a non-nil pointer is returned unchanged, a nil pointer
gets a freshly allocated cell holding the default value. -/
def DefaultPointer (p : Option Nat) (dflt : GoVal) (h : Heap) : Option Nat × Heap :=
  match p with
  | some a => (some a, h)
  | none =>
      let r := h.alloc dflt
      (some r.1, r.2)

/-- Modelled from the spec: `helpers.DefaultString` (outside the provided
sources): a non-empty string is kept, an empty one is replaced by the
default. -/
def DefaultString (existing dflt : String) : String :=
  if existing ≠ "" then existing else dflt

/-- Modelled from the spec: the constant `openvpn.Openvpn24` (the
constants package is outside the provided sources; the settings struct
documents the two valid versions as "2.4" and "2.5"). -/
def Openvpn24 : String := "2.4"

/-- Modelled from the spec: the constant `openvpn.Openvpn25`. -/
def Openvpn25 : String := "2.5"

/-- Modelled from the spec: provider-name constants from the
`constants/providers` package (outside the provided sources); only their
mutual distinctness matters to the settings code verified here. -/
def providerCustom : String := "custom"

/-- Modelled from the spec: `providers.Airvpn`. -/
def providerAirvpn : String := "airvpn"

/-- Modelled from the spec: `providers.VPNSecure`. -/
def providerVPNSecure : String := "vpnsecure"

/-- Modelled from the spec: `providers.Ivpn`. -/
def providerIvpn : String := "ivpn"

/-- Modelled from the spec: `providers.Cyberghost`. -/
def providerCyberghost : String := "cyberghost"

/-- Modelled from the spec: `providers.VPNUnlimited`. -/
def providerVPNUnlimited : String := "vpn unlimited"

/-- Modelled from the spec: `providers.Wevpn`. -/
def providerWevpn : String := "wevpn"

/-- Modelled from the spec: `providers.Mullvad`. -/
def providerMullvad : String := "mullvad"

/-- Modelled from the spec: `providers.PrivateInternetAccess`. -/
def providerPIA : String := "private internet access"

/-- Modelled from the spec: `presets.Strong`, the default Private
Internet Access encryption preset. -/
def presetStrong : String := "strong"

/-- The `settings.OpenVPN` struct: plain string fields stay strings,
pointer fields (`*string`, `*uint16`, `*int`) and slice fields
(`[]string`) become heap addresses. -/
structure OpenVPN where
  Version : String
  User : Option Nat
  Password : Option Nat
  ConfFile : Option Nat
  Ciphers : Option Nat
  Auth : Option Nat
  Cert : Option Nat
  Key : Option Nat
  EncryptedKey : Option Nat
  KeyPassphrase : Option Nat
  PIAEncPreset : Option Nat
  MSSFix : Option Nat
  Interface : String
  ProcessUser : String
  Verbosity : Option Nat
  Flags : Option Nat
deriving DecidableEq

/-- The pointer and slice fields of a settings value, in declaration
order. -/
def OpenVPN.addrs (o : OpenVPN) : List (Option Nat) :=
  [o.User, o.Password, o.ConfFile, o.Ciphers, o.Auth, o.Cert, o.Key,
   o.EncryptedKey, o.KeyPassphrase, o.PIAEncPreset, o.MSSFix, o.Verbosity, o.Flags]

/-- The settings value points to heap cell `a`. -/
def OpenVPN.usesAddr (o : OpenVPN) (a : Nat) : Prop := some a ∈ o.addrs

/-- Well-formedness: every pointer field refers to an allocated cell. -/
def OpenVPN.wf (o : OpenVPN) (h : Heap) : Prop :=
  o.addrs.all (fun p => p.all fun a => decide (a < h.next)) = true

/-- Dereferenced view of a pointer through a value projection. -/
def ptrView (f : GoVal → α) (h : Heap) (p : Option Nat) : Option α :=
  p.map fun a => f (h.mem a)

/-- The fully dereferenced contents of a settings value: what Go code
observes through the struct, with pointer identity forgotten. -/
structure OpenVPNView where
  Version : String
  User : Option String
  Password : Option String
  ConfFile : Option String
  Ciphers : Option (List String)
  Auth : Option String
  Cert : Option String
  Key : Option String
  EncryptedKey : Option String
  KeyPassphrase : Option String
  PIAEncPreset : Option String
  MSSFix : Option Nat
  Interface : String
  ProcessUser : String
  Verbosity : Option Int
  Flags : Option (List String)
deriving DecidableEq

/-- Dereferences every field of a settings value in a given heap. -/
def OpenVPN.view (o : OpenVPN) (h : Heap) : OpenVPNView :=
  { Version := o.Version
    User := ptrView GoVal.asStr h o.User
    Password := ptrView GoVal.asStr h o.Password
    ConfFile := ptrView GoVal.asStr h o.ConfFile
    Ciphers := ptrView GoVal.asStrList h o.Ciphers
    Auth := ptrView GoVal.asStr h o.Auth
    Cert := ptrView GoVal.asStr h o.Cert
    Key := ptrView GoVal.asStr h o.Key
    EncryptedKey := ptrView GoVal.asStr h o.EncryptedKey
    KeyPassphrase := ptrView GoVal.asStr h o.KeyPassphrase
    PIAEncPreset := ptrView GoVal.asStr h o.PIAEncPreset
    MSSFix := ptrView GoVal.asU16 h o.MSSFix
    Interface := o.Interface
    ProcessUser := o.ProcessUser
    Verbosity := ptrView GoVal.asInt h o.Verbosity
    Flags := ptrView GoVal.asStrList h o.Flags }

/-- `OpenVPN.copy` from the source: copies every pointer and slice field
through `helpers.CopyPointer`/`helpers.CopySlice`, in struct-literal
order. -/
def OpenVPN.copy (o : OpenVPN) (h : Heap) : OpenVPN × Heap :=
  let r1 := CopyPointer o.User h
  let r2 := CopyPointer o.Password r1.2
  let r3 := CopyPointer o.ConfFile r2.2
  let r4 := CopySlice o.Ciphers r3.2
  let r5 := CopyPointer o.Auth r4.2
  let r6 := CopyPointer o.Cert r5.2
  let r7 := CopyPointer o.Key r6.2
  let r8 := CopyPointer o.EncryptedKey r7.2
  let r9 := CopyPointer o.KeyPassphrase r8.2
  let r10 := CopyPointer o.PIAEncPreset r9.2
  let r11 := CopyPointer o.MSSFix r10.2
  let r12 := CopyPointer o.Verbosity r11.2
  let r13 := CopySlice o.Flags r12.2
  ({ Version := o.Version
     User := r1.1
     Password := r2.1
     ConfFile := r3.1
     Ciphers := r4.1
     Auth := r5.1
     Cert := r6.1
     Key := r7.1
     EncryptedKey := r8.1
     KeyPassphrase := r9.1
     PIAEncPreset := r10.1
     MSSFix := r11.1
     Interface := o.Interface
     ProcessUser := o.ProcessUser
     Verbosity := r12.1
     Flags := r13.1 }, r13.2)

/-- `OpenVPN.setDefaults` from the source: fills every unset field with
its default, in statement order; `Ciphers` and `Flags` are untouched. -/
def OpenVPN.setDefaults (o : OpenVPN) (vpnProvider : String) (h : Heap) :
    OpenVPN × Heap :=
  let version := DefaultString o.Version Openvpn25
  let r1 := DefaultPointer o.User (GoVal.str "") h
  let r2 :=
    if vpnProvider == providerMullvad then
      DefaultPointer o.Password (GoVal.str "m") r1.2
    else
      DefaultPointer o.Password (GoVal.str "") r1.2
  let r3 := DefaultPointer o.ConfFile (GoVal.str "") r2.2
  let r4 := DefaultPointer o.Auth (GoVal.str "") r3.2
  let r5 := DefaultPointer o.Cert (GoVal.str "") r4.2
  let r6 := DefaultPointer o.Key (GoVal.str "") r5.2
  let r7 := DefaultPointer o.EncryptedKey (GoVal.str "") r6.2
  let r8 := DefaultPointer o.KeyPassphrase (GoVal.str "") r7.2
  let defaultEncPreset := if vpnProvider == providerPIA then presetStrong else ""
  let r9 := DefaultPointer o.PIAEncPreset (GoVal.str defaultEncPreset) r8.2
  let r10 := DefaultPointer o.MSSFix (GoVal.u16 0) r9.2
  let iface := DefaultString o.Interface "tun0"
  let processUser := DefaultString o.ProcessUser "root"
  let r11 := DefaultPointer o.Verbosity (GoVal.int 1) r10.2
  ({ o with
     Version := version
     User := r1.1
     Password := r2.1
     ConfFile := r3.1
     Auth := r4.1
     Cert := r5.1
     Key := r6.1
     EncryptedKey := r7.1
     KeyPassphrase := r8.1
     PIAEncPreset := r9.1
     MSSFix := r10.1
     Interface := iface
     ProcessUser := processUser
     Verbosity := r11.1 }, r11.2)

/-- The validation errors `OpenVPN.validate` and its helpers can return,
one constructor per distinct sentinel or wrapped failure. -/
inductive SettingsErr where
  | versionNotValid (version : String)
  | userIsEmpty
  | passwordIsEmpty
  | confFileFilepathMissing
  | confFileNotExists
  | confFileExtractFailed
  | certMissing
  | certBase64Invalid
  | keyMissing
  | keyBase64Invalid
  | encryptedKeyMissing
  | encryptedKeyBase64Invalid
  | keyPassphraseIsEmpty
  | mssFixTooHigh (value : Nat)
  | interfaceNotValid (name : String)
  | verbosityOutOfBounds (boundsText : String)
deriving DecidableEq

/-- Oracles for the externals `validate` calls: the two regular
expressions, `helpers.FileExists`, the configuration extractor and base64
decoding, none of which is part of the verified logic. -/
structure ValidateEnv where
  ivpnAccountIDMatch : String → Bool
  interfaceNameMatch : String → Bool
  fileExists : String → Bool
  extractOK : String → Bool
  base64OK : String → Bool

/-- Dereference of a `*string` field (Go panics on nil; callers of
`validate` guarantee the fields are non-nil, which the claim theorems
assume). -/
def derefStr (h : Heap) : Option Nat → String
  | none => ""
  | some a => (h.mem a).asStr

/-- Dereference of a `*uint16` field. -/
def derefU16 (h : Heap) : Option Nat → Nat
  | none => 0
  | some a => (h.mem a).asU16

/-- Dereference of a `*int` field. -/
def derefInt (h : Heap) : Option Nat → Int
  | none => 0
  | some a => (h.mem a).asInt

/-- `validateOpenVPNConfigFilepath` from the source. -/
def validateOpenVPNConfigFilepath (env : ValidateEnv) (isCustom : Bool)
    (confFile : String) : Option SettingsErr :=
  if !isCustom then none
  else if confFile == "" then some SettingsErr.confFileFilepathMissing
  else if !env.fileExists confFile then some SettingsErr.confFileNotExists
  else if !env.extractOK confFile then some SettingsErr.confFileExtractFailed
  else none

/-- `validateOpenVPNClientCertificate` from the source. -/
def validateOpenVPNClientCertificate (env : ValidateEnv)
    (vpnProvider clientCert : String) : Option SettingsErr :=
  if (vpnProvider == providerAirvpn || vpnProvider == providerCyberghost ||
      vpnProvider == providerVPNSecure || vpnProvider == providerVPNUnlimited) &&
      clientCert == "" then some SettingsErr.certMissing
  else if clientCert == "" then none
  else if !env.base64OK clientCert then some SettingsErr.certBase64Invalid
  else none

/-- `validateOpenVPNClientKey` from the source. -/
def validateOpenVPNClientKey (env : ValidateEnv)
    (vpnProvider clientKey : String) : Option SettingsErr :=
  if (vpnProvider == providerAirvpn || vpnProvider == providerCyberghost ||
      vpnProvider == providerVPNUnlimited || vpnProvider == providerWevpn) &&
      clientKey == "" then some SettingsErr.keyMissing
  else if clientKey == "" then none
  else if !env.base64OK clientKey then some SettingsErr.keyBase64Invalid
  else none

/-- `validateOpenVPNEncryptedKey` from the source. -/
def validateOpenVPNEncryptedKey (env : ValidateEnv)
    (vpnProvider encryptedPrivateKey : String) : Option SettingsErr :=
  if vpnProvider == providerVPNSecure && encryptedPrivateKey == "" then
    some SettingsErr.encryptedKeyMissing
  else if encryptedPrivateKey == "" then none
  else if !env.base64OK encryptedPrivateKey then
    some SettingsErr.encryptedKeyBase64Invalid
  else none

/-- The literal bounds text of the verbosity error format string in the
source: `"%w: %d can only be between 0 and 5"`. -/
def verbosityBoundsText : String := "can only be between 0 and 5"

/-- Every check of `OpenVPN.validate` before the final verbosity-range
check, in source order. -/
def validateExceptVerbosity (o : OpenVPN) (vpnProvider : String) (h : Heap)
    (env : ValidateEnv) : Option SettingsErr :=
  if !(o.Version == Openvpn24 || o.Version == Openvpn25) then
    some (SettingsErr.versionNotValid o.Version)
  else
    let isCustom := vpnProvider == providerCustom
    let isUserRequired := !isCustom && vpnProvider != providerAirvpn &&
      vpnProvider != providerVPNSecure
    if isUserRequired && derefStr h o.User == "" then some SettingsErr.userIsEmpty
    else
      let passwordRequired := isUserRequired && (vpnProvider != providerIvpn ||
        !env.ivpnAccountIDMatch (derefStr h o.User))
      if passwordRequired && derefStr h o.Password == "" then
        some SettingsErr.passwordIsEmpty
      else match validateOpenVPNConfigFilepath env isCustom (derefStr h o.ConfFile) with
      | some e => some e
      | none => match validateOpenVPNClientCertificate env vpnProvider (derefStr h o.Cert) with
      | some e => some e
      | none => match validateOpenVPNClientKey env vpnProvider (derefStr h o.Key) with
      | some e => some e
      | none => match validateOpenVPNEncryptedKey env vpnProvider (derefStr h o.EncryptedKey) with
      | some e => some e
      | none =>
        if derefStr h o.EncryptedKey != "" && derefStr h o.KeyPassphrase == "" then
          some SettingsErr.keyPassphraseIsEmpty
        else if derefU16 h o.MSSFix > 10000 then
          some (SettingsErr.mssFixTooHigh (derefU16 h o.MSSFix))
        else if !env.interfaceNameMatch o.Interface then
          some (SettingsErr.interfaceNotValid o.Interface)
        else none

/-- `OpenVPN.validate` from the source: the checks before the verbosity
range, then `if *o.Verbosity < 0 || *o.Verbosity > 6` returning the error
whose message claims bounds 0 to 5. -/
def validate (o : OpenVPN) (vpnProvider : String) (h : Heap)
    (env : ValidateEnv) : Option SettingsErr :=
  match validateExceptVerbosity o vpnProvider h env with
  | some e => some e
  | none =>
      if derefInt h o.Verbosity < 0 || derefInt h o.Verbosity > 6 then
        some (SettingsErr.verbosityOutOfBounds verbosityBoundsText)
      else none

/-- The fields `validate` dereferences unconditionally, which the source
documents as never nil in the internal state. -/
def OpenVPN.derefFieldsSet (o : OpenVPN) : Prop :=
  o.User.isSome = true ∧ o.Password.isSome = true ∧ o.ConfFile.isSome = true ∧
  o.Cert.isSome = true ∧ o.Key.isSome = true ∧ o.EncryptedKey.isSome = true ∧
  o.KeyPassphrase.isSome = true ∧ o.MSSFix.isSome = true ∧ o.Verbosity.isSome = true

/-- Conclusion of claim C6: once the earlier checks pass, `validate`
accepts exactly the verbosity values 0 through 6 and rejects the rest
with the error whose message text states the bounds as 0 to 5. -/
def C6Conclusion (o : OpenVPN) (vpnProvider : String) (h : Heap)
    (env : ValidateEnv) : Prop :=
  (validate o vpnProvider h env = none ↔
    0 ≤ derefInt h o.Verbosity ∧ derefInt h o.Verbosity ≤ 6) ∧
  ((derefInt h o.Verbosity < 0 ∨ 6 < derefInt h o.Verbosity) →
    validate o vpnProvider h env =
      some (SettingsErr.verbosityOutOfBounds verbosityBoundsText)) ∧
  verbosityBoundsText = "can only be between 0 and 5"

/-- Conclusion of claim C8: the copy dereferences field-by-field to the
same view as the original, its pointer and slice cells are disjoint from
the original's, and writing through any pointer or slice field of the
copy leaves every dereferenced field of the original unchanged. -/
def C8Conclusion (o : OpenVPN) (h : Heap) : Prop :=
  (o.copy h).1.view (o.copy h).2 = o.view h ∧
  o.view (o.copy h).2 = o.view h ∧
  (∀ a, (o.copy h).1.usesAddr a → ¬ o.usesAddr a) ∧
  (∀ a v, (o.copy h).1.usesAddr a →
    o.view (((o.copy h).2).write a v) = o.view (o.copy h).2)

/-- Conclusion of claim C9: applying `setDefaults` twice equals applying
it once (same settings value and same heap), and every field already set
keeps its value: non-empty strings are kept, non-nil pointers keep their
address and their pointed-to cell is unchanged, and the untouched slice
fields are preserved. -/
def C9Conclusion (o : OpenVPN) (vpnProvider : String) (h : Heap) : Prop :=
  (o.setDefaults vpnProvider h).1.setDefaults vpnProvider (o.setDefaults vpnProvider h).2 =
    o.setDefaults vpnProvider h ∧
  (o.Version ≠ "" → (o.setDefaults vpnProvider h).1.Version = o.Version) ∧
  (o.Interface ≠ "" → (o.setDefaults vpnProvider h).1.Interface = o.Interface) ∧
  (o.ProcessUser ≠ "" → (o.setDefaults vpnProvider h).1.ProcessUser = o.ProcessUser) ∧
  (∀ a, o.User = some a → (o.setDefaults vpnProvider h).1.User = some a) ∧
  (∀ a, o.Password = some a → (o.setDefaults vpnProvider h).1.Password = some a) ∧
  (∀ a, o.ConfFile = some a → (o.setDefaults vpnProvider h).1.ConfFile = some a) ∧
  (∀ a, o.Auth = some a → (o.setDefaults vpnProvider h).1.Auth = some a) ∧
  (∀ a, o.Cert = some a → (o.setDefaults vpnProvider h).1.Cert = some a) ∧
  (∀ a, o.Key = some a → (o.setDefaults vpnProvider h).1.Key = some a) ∧
  (∀ a, o.EncryptedKey = some a → (o.setDefaults vpnProvider h).1.EncryptedKey = some a) ∧
  (∀ a, o.KeyPassphrase = some a → (o.setDefaults vpnProvider h).1.KeyPassphrase = some a) ∧
  (∀ a, o.PIAEncPreset = some a → (o.setDefaults vpnProvider h).1.PIAEncPreset = some a) ∧
  (∀ a, o.MSSFix = some a → (o.setDefaults vpnProvider h).1.MSSFix = some a) ∧
  (∀ a, o.Verbosity = some a → (o.setDefaults vpnProvider h).1.Verbosity = some a) ∧
  (o.setDefaults vpnProvider h).1.Ciphers = o.Ciphers ∧
  (o.setDefaults vpnProvider h).1.Flags = o.Flags ∧
  (∀ a, o.usesAddr a → (o.setDefaults vpnProvider h).2.mem a = h.mem a)

/-- Modelled from the spec: `Updater.FetchServers` of the cyberghost
updater.  The control flow is from the source; the collaborators outside
the provided sources are abstracted: `hostsSlice` is the precomputed host
list of `getPossibleServers()`, `resolve` is the presolver call keyed on
that list, `adaptToSlice` composes `adaptWithIPs` and `toSlice`, and
`sort.Sort(models.SortableServers(servers))` is modelled by `mergeSort`
with the `SortableServers` comparison `le`.  The Go pair
`(servers, err)` with a nil slice on error becomes
`(Option (List Server), Option E)`. -/
def FetchServers {Server HostIPs E : Type} (le : Server → Server → Bool)
    (hostsSlice : List String) (resolve : List String → Except E HostIPs)
    (adaptToSlice : HostIPs → List Server) :
    Option (List Server) × Option E :=
  match resolve hostsSlice with
  | Except.error e => (none, some e)
  | Except.ok hostToIPs => (some ((adaptToSlice hostToIPs).mergeSort le), none)

/-- Conclusion of claim C10: a resolver error propagates with a nil
server slice; otherwise the result is a permutation of the adapted server
set, sorted by the `SortableServers` ordering, with no error. -/
def C10Conclusion {Server HostIPs E : Type} (le : Server → Server → Bool)
    (hostsSlice : List String) (resolve : List String → Except E HostIPs)
    (adaptToSlice : HostIPs → List Server) : Prop :=
  (∀ e, resolve hostsSlice = Except.error e →
    FetchServers le hostsSlice resolve adaptToSlice = (none, some e)) ∧
  (∀ v, resolve hostsSlice = Except.ok v →
    ∃ l, FetchServers le hostsSlice resolve adaptToSlice = (some l, none) ∧
      l.Perm (adaptToSlice v) ∧ l.Pairwise (fun a b => le a b = true))

/-- A concrete heap for the settings examples: six allocated cells. -/
def heapW : Heap :=
  ⟨fun a =>
    if a = 0 then GoVal.str "u"
    else if a = 1 then GoVal.str "p"
    else if a = 2 then GoVal.str ""
    else if a = 3 then GoVal.u16 0
    else if a = 4 then GoVal.int 3
    else if a = 5 then GoVal.strList ["cipher1"]
    else GoVal.str "", 6⟩

/-- A concrete settings value whose dereferenced fields pass every check
of `validate` before the verbosity range. -/
def oC6W : OpenVPN :=
  ⟨"2.5", some 0, some 1, some 2, none, none, some 2, some 2, some 2, some 2,
   none, some 3, "tun0", "root", some 4, none⟩

/-- Oracles that accept everything, for concrete validation runs. -/
def envW : ValidateEnv :=
  ⟨fun _ => true, fun _ => true, fun _ => true, fun _ => true, fun _ => true⟩

/-- A concrete settings value with a mix of nil and non-nil pointer and
slice fields, for the copy example. -/
def oC8W : OpenVPN :=
  ⟨"2.5", some 0, none, some 2, some 5, none, none, none, none, none,
   none, some 3, "tun0", "root", some 4, none⟩

/-- A concrete settings value with a mix of set and unset fields, for the
defaults example. -/
def oC9W : OpenVPN :=
  ⟨"", some 0, none, none, some 5, none, some 2, none, none, none,
   none, none, "", "root", some 4, some 5⟩

theorem and_div_two_pow (a b : Nat) : ∀ k, (a &&& b) / 2 ^ k = (a / 2 ^ k) &&& (b / 2 ^ k)
  | 0 => by simp
  | k + 1 => by
    rw [Nat.pow_succ, ← Nat.div_div_eq_div_mul, ← Nat.div_div_eq_div_mul,
      ← Nat.div_div_eq_div_mul, and_div_two_pow a b k, Nat.and_div_two]

theorem and_mod_two_pow (a b k : Nat) :
    (a &&& b) % 2 ^ k = (a % 2 ^ k) &&& (b % 2 ^ k) := by
  refine Nat.eq_of_testBit_eq fun i => ?_
  simp only [Nat.testBit_mod_two_pow, Nat.testBit_and]
  by_cases h : i < k <;> simp [h]

theorem and_eq_digits (x m k : Nat) :
    x &&& m = 2 ^ k * (x / 2 ^ k &&& m / 2 ^ k) + (x % 2 ^ k &&& m % 2 ^ k) := by
  conv_lhs => rw [← Nat.div_add_mod (x &&& m) (2 ^ k)]
  rw [and_div_two_pow x m k, and_mod_two_pow]

theorem mask_f0_iff {x : Nat} (hx : x < 256) : (x &&& 240 = 16) ↔ (16 ≤ x ∧ x ≤ 31) := by
  have h := and_eq_digits x 240 4
  norm_num at h
  have h15 : x / 16 &&& 15 = x / 16 % 16 := by
    have := Nat.and_pow_two_sub_one_eq_mod (x / 16) 4
    norm_num at this
    exact this
  rw [h15] at h
  rw [h]
  omega

theorem mask_fe_iff {x : Nat} (hx : x < 256) : (x &&& 254 = 252) ↔ (x = 252 ∨ x = 253) := by
  have h := and_eq_digits x 254 1
  norm_num at h
  have h127 : x / 2 &&& 127 = x / 2 % 128 := by
    have := Nat.and_pow_two_sub_one_eq_mod (x / 2) 7
    norm_num at this
    exact this
  rw [h127] at h
  rw [h]
  omega

theorem mask_ffc0_iff {w : Nat} (hw : w < 65536) :
    (w &&& 65472 = 65152) ↔ (w / 256 = 254 ∧ 128 ≤ w % 256 ∧ w % 256 ≤ 191) := by
  have h := and_eq_digits w 65472 6
  norm_num at h
  have h1023 : w / 64 &&& 1023 = w / 64 % 1024 := by
    have := Nat.and_pow_two_sub_one_eq_mod (w / 64) 10
    norm_num at this
    exact this
  rw [h1023] at h
  rw [h]
  omega

theorem mask_ff0f_iff {w : Nat} (hw : w < 65536) :
    (w &&& 65295 = 65282) ↔ (w / 256 = 255 ∧ w % 16 = 2) := by
  have h := and_eq_digits w 65295 8
  norm_num at h
  have h255 : w / 256 &&& 255 = w / 256 % 256 := by
    have := Nat.and_pow_two_sub_one_eq_mod (w / 256) 8
    norm_num at this
    exact this
  have h15 : w % 256 &&& 15 = w % 16 := by
    have := Nat.and_pow_two_sub_one_eq_mod (w % 256) 4
    norm_num at this
    exact this
  rw [h255, h15] at h
  rw [h]
  omega

theorem u16_div (x : Nat) : (x % 65536) / 256 = (x >>> 8) % 256 := by
  rw [Nat.shiftRight_eq_div_pow]
  have h : (65536 : Nat) = 256 * 256 := by norm_num
  rw [h, Nat.mod_mul_right_div_self]

theorem u16_mod (x : Nat) : (x % 65536) % 256 = x % 256 :=
  Nat.mod_mod_of_dvd x (by norm_num)

theorem Addr.v4_lt (ip : Addr) (i : Nat) : ip.v4 i < 256 :=
  Nat.mod_lt _ (by norm_num)

theorem Addr.v6_lt (ip : Addr) (i : Nat) : ip.v6 i < 256 := by
  unfold Addr.v6
  split <;> exact Nat.mod_lt _ (by norm_num)

theorem Addr.v6u16_lt (ip : Addr) (i : Nat) : ip.v6u16 i < 65536 := by
  unfold Addr.v6u16
  split <;> exact Nat.mod_lt _ (by norm_num)

theorem Addr.v6u16_zero_div (ip : Addr) : ip.v6u16 0 / 256 = ip.v6 0 := by
  unfold Addr.v6u16 Addr.v6
  norm_num
  rw [u16_div, ← Nat.shiftRight_add]

theorem Addr.v6u16_zero_mod (ip : Addr) : ip.v6u16 0 % 256 = ip.v6 1 := by
  unfold Addr.v6u16 Addr.v6
  norm_num

theorem Addr.v6u16_zero_mod16 (ip : Addr) : ip.v6u16 0 % 16 = ip.v6 1 % 16 := by
  unfold Addr.v6u16 Addr.v6
  norm_num

theorem isPrivate_iff (ip : Addr) : ip.IsPrivate = true ↔ specPrivate ip := by
  unfold Addr.IsPrivate specPrivate
  cases hz : ip.z
  · simp [Addr.Is4, Addr.Is6, hz]
  · simp [Addr.Is4, Addr.Is6, hz]
    rw [mask_f0_iff (ip.v4_lt 1)]
    tauto
  · simp [Addr.Is4, Addr.Is6, hz]
    rw [mask_fe_iff (ip.v6_lt 0)]

theorem isLoopback_iff (ip : Addr) : ip.IsLoopback = true ↔ specLoopback ip := by
  unfold Addr.IsLoopback specLoopback
  cases hz : ip.z <;> simp [Addr.Is4, Addr.Is6, hz]

theorem isLinkLocalUnicast_iff (ip : Addr) :
    ip.IsLinkLocalUnicast = true ↔ specLinkLocalUnicast ip := by
  unfold Addr.IsLinkLocalUnicast specLinkLocalUnicast
  cases hz : ip.z
  · simp [Addr.Is4, Addr.Is6, hz]
  · simp [Addr.Is4, Addr.Is6, hz]
  · simp [Addr.Is4, Addr.Is6, hz]
    rw [mask_ffc0_iff (ip.v6u16_lt 0), ip.v6u16_zero_div, ip.v6u16_zero_mod]

theorem isLinkLocalMulticast_iff (ip : Addr) :
    ip.IsLinkLocalMulticast = true ↔ specLinkLocalMulticast ip := by
  unfold Addr.IsLinkLocalMulticast specLinkLocalMulticast
  cases hz : ip.z
  · simp [Addr.Is4, Addr.Is6, hz]
  · simp [Addr.Is4, Addr.Is6, hz]
    tauto
  · simp [Addr.Is4, Addr.Is6, hz]
    rw [mask_ff0f_iff (ip.v6u16_lt 0), ip.v6u16_zero_div]
    rw [show ip.v6u16 0 % 16 = ip.v6 1 % 16 from ip.v6u16_zero_mod16]

theorem Addr.is6_of_is4in6 {ip : Addr} (h : ip.Is4In6 = true) : ip.Is6 = true := by
  unfold Addr.Is4In6 at h
  simp only [Bool.and_eq_true] at h
  exact h.1.1

/-- C2: `IPIsPrivate` is a total boolean predicate returning true exactly
on the private-use, loopback, link-local unicast and link-local multicast
ranges of both address families, and hence false on every public unicast
address. -/
theorem claim_C2 (ip : Addr) : IPIsPrivate ip = true ↔ specExcludedFromTunnel ip := by
  unfold IPIsPrivate specExcludedFromTunnel
  simp only [Bool.or_eq_true]
  rw [isPrivate_iff, isLoopback_iff, isLinkLocalUnicast_iff, isLinkLocalMulticast_iff]
  tauto

/-- C1 (amended): `ipMatchesFamily` holds for V6 on every V6 address,
including V4-mapped-V6 ones, and for V4 on bare V4 and V4-mapped-V6
addresses; in particular a V4-mapped-V6 address matches both families. -/
theorem claim_C1 (ip : Addr) (family : Nat) :
    (ipMatchesFamily ip family = true ↔ amendedMatchesFamily ip family) ∧
    (ip.Is4In6 = true →
      ipMatchesFamily ip FAMILY_V4 = true ∧ ipMatchesFamily ip FAMILY_V6 = true) := by
  constructor
  · unfold ipMatchesFamily amendedMatchesFamily genuineV6
    simp only [Bool.or_eq_true, Bool.and_eq_true, beq_iff_eq]
    constructor
    · rintro (⟨hf, h6⟩ | ⟨hf, h4⟩)
      · refine Or.inl ⟨hf, ?_⟩
        by_cases hm : ip.Is4In6 = true
        · exact Or.inr hm
        · exact Or.inl ⟨h6, by simpa using hm⟩
      · exact Or.inr ⟨hf, h4⟩
    · rintro (⟨hf, (⟨h6, _⟩ | hm)⟩ | ⟨hf, h4⟩)
      · exact Or.inl ⟨hf, h6⟩
      · exact Or.inl ⟨hf, Addr.is6_of_is4in6 hm⟩
      · exact Or.inr ⟨hf, h4⟩
  · intro hm
    constructor
    · unfold ipMatchesFamily
      simp [FAMILY_V4, FAMILY_V6, hm]
    · unfold ipMatchesFamily
      simp [FAMILY_V4, FAMILY_V6, Addr.is6_of_is4in6 hm]

/-- C1 counterexample: the V4-mapped-V6 address `::ffff:1.2.3.4` matches
family V6 under `ipMatchesFamily`, while the claim (formalized as
`claimedMatchesFamily`) states a V4-mapped-V6 address never matches V6. -/
theorem claim_C1_counterexample :
    mappedExample.Is4In6 = true ∧
    ipMatchesFamily mappedExample FAMILY_V6 = true ∧
    claimedMatchesFamily mappedExample FAMILY_V6 = false := by decide

/-- C1 witness: the amended theorem applied to the concrete V4-mapped-V6
address `::ffff:1.2.3.4`. -/
theorem claim_C1_witness :
    mappedExample.Is4In6 = true ∧
    ipMatchesFamily mappedExample FAMILY_V4 = true ∧
    ipMatchesFamily mappedExample FAMILY_V6 = true :=
  ⟨by decide, (claim_C1 mappedExample FAMILY_V4).2 (by decide)⟩

theorem assignedIPAux_find_some (name : String) (family : Nat) (total : Nat) (m : Addr) :
    ∀ (l : List NetAddrEntry) (acc : Addr),
      (l.filterMap entryAddr).find? (fun ip => ipMatchesFamily ip family) = some m →
      assignedIPAux name family total acc l = (m.Unmap, none) := by
  intro l
  induction l with
  | nil => intro acc h; simp at h
  | cons e rest ih =>
    intro acc h
    cases e with
    | other =>
      simp only [List.filterMap_cons, entryAddr] at h
      simp only [assignedIPAux]
      exact ih acc h
    | ipAddr ip =>
      simp only [List.filterMap_cons, entryAddr] at h
      rw [List.find?_cons] at h
      cases hm : ipMatchesFamily ip family with
      | true =>
        rw [hm] at h
        have h2 : ip = m := by simpa using h
        subst h2
        simp [assignedIPAux, hm]
      | false =>
        rw [hm] at h
        simp only [assignedIPAux]
        rw [if_neg (by simp [hm])]
        exact ih ip h
    | ipNet ip =>
      simp only [List.filterMap_cons, entryAddr] at h
      rw [List.find?_cons] at h
      cases hm : ipMatchesFamily ip family with
      | true =>
        rw [hm] at h
        have h2 : ip = m := by simpa using h
        subst h2
        simp [assignedIPAux, hm]
      | false =>
        rw [hm] at h
        simp only [assignedIPAux]
        rw [if_neg (by simp [hm])]
        exact ih ip h

theorem assignedIPAux_find_none (name : String) (family : Nat) (total : Nat) :
    ∀ (l : List NetAddrEntry) (acc : Addr),
      (l.filterMap entryAddr).find? (fun ip => ipMatchesFamily ip family) = none →
      (assignedIPAux name family total acc l).2 =
        some (RoutingErr.ipNotFound name total) := by
  intro l
  induction l with
  | nil => intro acc _; simp [assignedIPAux]
  | cons e rest ih =>
    intro acc h
    cases e with
    | other =>
      simp only [List.filterMap_cons, entryAddr] at h
      simp only [assignedIPAux]
      exact ih acc h
    | ipAddr ip =>
      simp only [List.filterMap_cons, entryAddr] at h
      rw [List.find?_cons] at h
      cases hm : ipMatchesFamily ip family with
      | true => rw [hm] at h; simp at h
      | false =>
        rw [hm] at h
        simp only [assignedIPAux]
        rw [if_neg (by simp [hm])]
        exact ih ip h
    | ipNet ip =>
      simp only [List.filterMap_cons, entryAddr] at h
      rw [List.find?_cons] at h
      cases hm : ipMatchesFamily ip family with
      | true => rw [hm] at h; simp at h
      | false =>
        rw [hm] at h
        simp only [assignedIPAux]
        rw [if_neg (by simp [hm])]
        exact ih ip h

theorem firstFamilyMatch_some_assignedIP (name : String) (family : Nat)
    (addrs : List NetAddrEntry) (m : Addr)
    (hf : firstFamilyMatch family addrs = some m) :
    assignedIP name family (IfaceResult.ok addrs) = (m.Unmap, none) := by
  unfold firstFamilyMatch at hf
  simpa [assignedIP] using
    assignedIPAux_find_some name family addrs.length m addrs zeroAddr hf

theorem firstFamilyMatch_none_assignedIP (name : String) (family : Nat)
    (addrs : List NetAddrEntry)
    (hf : firstFamilyMatch family addrs = none) :
    (assignedIP name family (IfaceResult.ok addrs)).2 =
      some (RoutingErr.ipNotFound name addrs.length) := by
  unfold firstFamilyMatch at hf
  simpa [assignedIP] using
    assignedIPAux_find_none name family addrs.length addrs zeroAddr hf

theorem assignedIPAux_err (name : String) (family : Nat) (total : Nat) :
    ∀ (l : List NetAddrEntry) (acc : Addr) (e : RoutingErr),
      (assignedIPAux name family total acc l).2 = some e →
      e = RoutingErr.ipNotFound name total := by
  intro l
  induction l with
  | nil =>
    intro acc e h
    simp [assignedIPAux] at h
    exact h.symm
  | cons entry rest ih =>
    intro acc e h
    cases entry with
    | other =>
      simp only [assignedIPAux] at h
      exact ih acc e h
    | ipAddr ip =>
      simp only [assignedIPAux] at h
      by_cases hm : ipMatchesFamily ip family
      · rw [if_pos hm] at h
        simp at h
      · rw [if_neg hm] at h
        exact ih ip e h
    | ipNet ip =>
      simp only [assignedIPAux] at h
      by_cases hm : ipMatchesFamily ip family
      · rw [if_pos hm] at h
        simp at h
      · rw [if_neg hm] at h
        exact ih ip e h

/-- C4: on a successfully enumerated address list, `assignedIP` succeeds
exactly when some enumerated address matches the requested family,
returning the first such address (normalized by `Unmap`); otherwise it
returns the `errInterfaceIPNotFound` error. -/
theorem claim_C4 (name : String) (family : Nat) (addrs : List NetAddrEntry) :
    C4Conclusion name family addrs := by
  unfold C4Conclusion
  cases hf : firstFamilyMatch family addrs with
  | some m =>
    have h := firstFamilyMatch_some_assignedIP name family addrs m hf
    refine ⟨?_, ?_, ?_⟩
    · rw [h]
      simp
    · intro m2 hm2
      cases hm2
      exact h
    · intro hnone
      cases hnone
  | none =>
    have h := firstFamilyMatch_none_assignedIP name family addrs hf
    refine ⟨?_, ?_, ?_⟩
    · rw [h]
      simp
    · intro m2 hm2
      cases hm2
    · intro _
      exact h

/-- C4 witness: the theorem applied to a concrete interface name, family
and address list. -/
theorem claim_C4_witness : C4Conclusion "tun0" FAMILY_V4 exampleAddrList :=
  claim_C4 "tun0" FAMILY_V4 exampleAddrList

/-- C3: with family V4, when the first family-matching enumerated address
is a V4-mapped-V6 address, `assignedIP` succeeds with that address
unmapped to bare V4 form, keeping the 128 address bits, and the result is
never a V4-mapped-V6 representation. -/
theorem claim_C3 (name : String) (addrs : List NetAddrEntry) (m : Addr)
    (h1 : firstFamilyMatch FAMILY_V4 addrs = some m) (h2 : m.Is4In6 = true) :
    C3Conclusion name addrs m := by
  unfold C3Conclusion
  have h := firstFamilyMatch_some_assignedIP name FAMILY_V4 addrs m h1
  have hu : m.Unmap = { m with z := Zone.z4 } := by
    unfold Addr.Unmap
    rw [if_pos h2]
  refine ⟨h, ?_, ?_, ?_, ?_⟩
  · rw [hu]
  · rw [hu]
  · rw [hu]
    rfl
  · rw [hu]
    simp [Addr.Is4In6, Addr.Is6]

/-- C3 witness: the theorem applied to a concrete address list whose
first V4 match is the V4-mapped form of `10.0.0.2`. -/
theorem claim_C3_witness :
    firstFamilyMatch FAMILY_V4 exampleAddrList = some mappedTen ∧
    mappedTen.Is4In6 = true ∧
    C3Conclusion "tun0" exampleAddrList mappedTen :=
  ⟨by decide, by decide,
    claim_C3 "tun0" exampleAddrList mappedTen (by decide) (by decide)⟩

/-- C5: on a non-existent interface name, `assignedIP` always returns
exactly the `InterfaceNotFound` error together with the zero (invalid)
address value, never another error kind and never a valid address. -/
theorem claim_C5 (name : String) (family : Nat) :
    assignedIP name family IfaceResult.notFound =
      (zeroAddr, some (RoutingErr.interfaceNotFound name)) ∧
    zeroAddr.IsValid = false :=
  ⟨rfl, rfl⟩

/-- C7 (amended): every error returned by `assignedIP` carries the
interface name and identifies which operation failed, but does not carry
the requested address family. -/
theorem claim_C7 (name : String) (family : Nat) (res : IfaceResult) (e : RoutingErr)
    (h : (assignedIP name family res).2 = some e) : C7Conclusion name res e := by
  unfold C7Conclusion
  cases res with
  | notFound =>
    simp only [assignedIP, Option.some.injEq] at h
    subst h
    simp [RoutingErr.op, RoutingErr.ifaceName]
  | addrsFailed =>
    simp only [assignedIP, Option.some.injEq] at h
    subst h
    simp [RoutingErr.op, RoutingErr.ifaceName]
  | ok addrs =>
    simp only [assignedIP] at h
    have he := assignedIPAux_err name family addrs.length addrs zeroAddr e h
    subst he
    refine ⟨rfl, ?_, ?_, ?_⟩
    · simp [RoutingErr.op]
    · simp [RoutingErr.op]
    · exact ⟨fun _ => ⟨addrs, rfl⟩, fun _ => rfl⟩

/-- C7 counterexample: requesting family V4 and family V6 on the same
missing interface yields the same (non-nil) error value, so the error
cannot carry the requested address family the claim says it carries. -/
theorem claim_C7_counterexample :
    (assignedIP "tun0" FAMILY_V4 IfaceResult.notFound).2 =
      (assignedIP "tun0" FAMILY_V6 IfaceResult.notFound).2 ∧
    (assignedIP "tun0" FAMILY_V4 IfaceResult.notFound).2 ≠ none := by
  exact ⟨rfl, by simp [assignedIP]⟩

/-- C7 witness: the amended theorem applied to a concrete failing call. -/
theorem claim_C7_witness :
    (assignedIP "tun0" FAMILY_V4 IfaceResult.notFound).2 =
      some (RoutingErr.interfaceNotFound "tun0") ∧
    C7Conclusion "tun0" IfaceResult.notFound (RoutingErr.interfaceNotFound "tun0") :=
  ⟨rfl, claim_C7 "tun0" FAMILY_V4 IfaceResult.notFound
    (RoutingErr.interfaceNotFound "tun0") rfl⟩

theorem heapExtends_refl (h : Heap) : h.Extends h :=
  ⟨Nat.le_refl _, fun _ _ => rfl⟩

theorem heapExtends_trans {h3 h2 h1 : Heap} (ha : h3.Extends h2) (hb : h2.Extends h1) :
    h3.Extends h1 :=
  ⟨Nat.le_trans hb.1 ha.1,
   fun a hlt => by rw [ha.2 a (Nat.lt_of_lt_of_le hlt hb.1), hb.2 a hlt]⟩

theorem alloc_extends (h : Heap) (v : GoVal) : (h.alloc v).2.Extends h :=
  ⟨Nat.le_succ _, fun _ hlt => if_neg (Nat.ne_of_lt hlt)⟩

theorem copyPointer_extends (p : Option Nat) (h : Heap) :
    (CopyPointer p h).2.Extends h := by
  cases p with
  | none => exact heapExtends_refl h
  | some a => exact alloc_extends h (h.mem a)

theorem copySlice_extends (p : Option Nat) (h : Heap) :
    (CopySlice p h).2.Extends h := by
  cases p with
  | none => exact heapExtends_refl h
  | some a => exact alloc_extends h _

theorem defaultPointer_extends (p : Option Nat) (v : GoVal) (h : Heap) :
    (DefaultPointer p v h).2.Extends h := by
  cases p with
  | some a => exact heapExtends_refl h
  | none => exact alloc_extends h v

theorem copyPointer_fresh {p : Option Nat} {h : Heap} {b : Nat}
    (hb : (CopyPointer p h).1 = some b) :
    h.next ≤ b ∧ b < (CopyPointer p h).2.next := by
  cases p with
  | none => simp [CopyPointer] at hb
  | some a =>
    simp only [CopyPointer, Heap.alloc, Option.some.injEq] at hb
    subst hb
    exact ⟨Nat.le_refl _, Nat.lt_succ_self _⟩

theorem copySlice_fresh {p : Option Nat} {h : Heap} {b : Nat}
    (hb : (CopySlice p h).1 = some b) :
    h.next ≤ b ∧ b < (CopySlice p h).2.next := by
  cases p with
  | none => simp [CopySlice] at hb
  | some a =>
    simp only [CopySlice, Heap.alloc, Option.some.injEq] at hb
    subst hb
    exact ⟨Nat.le_refl _, Nat.lt_succ_self _⟩

theorem defaultPointer_isSome (p : Option Nat) (v : GoVal) (h : Heap) :
    (DefaultPointer p v h).1.isSome = true := by
  cases p <;> simp [DefaultPointer, Heap.alloc]

theorem defaultPointer_of_isSome {p : Option Nat} (hp : p.isSome = true)
    (v : GoVal) (h : Heap) : DefaultPointer p v h = (p, h) := by
  cases p with
  | none => simp at hp
  | some a => rfl

theorem defaultPointer_keeps {p : Option Nat} {b : Nat} (hp : p = some b)
    (v : GoVal) (h : Heap) : (DefaultPointer p v h).1 = some b := by
  subst hp
  rfl

theorem defaultString_of_ne {s : String} (hs : s ≠ "") (d : String) :
    DefaultString s d = s := if_pos hs

theorem defaultString_ne_empty (s : String) {d : String} (hd : d ≠ "") :
    DefaultString s d ≠ "" := by
  unfold DefaultString
  split
  · assumption
  · exact hd

theorem ptrView_extends {α : Type} (f : GoVal → α) {h2 h1 : Heap}
    (hext : h2.Extends h1) (p : Option Nat)
    (hp : ∀ a, p = some a → a < h1.next) :
    ptrView f h2 p = ptrView f h1 p := by
  cases p with
  | none => rfl
  | some a => simp [ptrView, hext.2 a (hp a rfl)]

theorem copyPointer_view {α : Type} (f : GoVal → α) {h0 : Heap} (h : Heap)
    (p : Option Nat) (hext : h.Extends h0)
    (hp : ∀ a, p = some a → a < h0.next) :
    ptrView f (CopyPointer p h).2 (CopyPointer p h).1 = ptrView f h0 p := by
  cases p with
  | none => rfl
  | some a =>
    have ha := hext.2 a (hp a rfl)
    simp [CopyPointer, Heap.alloc, ptrView, ha]

theorem copySlice_view {h0 : Heap} (h : Heap) (p : Option Nat)
    (hext : h.Extends h0) (hp : ∀ a, p = some a → a < h0.next) :
    ptrView GoVal.asStrList (CopySlice p h).2 (CopySlice p h).1 =
      ptrView GoVal.asStrList h0 p := by
  cases p with
  | none => rfl
  | some a =>
    have ha := hext.2 a (hp a rfl)
    simp [CopySlice, Heap.alloc, ptrView, GoVal.asStrList, ha]

theorem ptrView_write {α : Type} (f : GoVal → α) (h : Heap) (a : Nat) (v : GoVal)
    (p : Option Nat) (hp : ∀ a0, p = some a0 → a0 ≠ a) :
    ptrView f (h.write a v) p = ptrView f h p := by
  cases p with
  | none => rfl
  | some a0 => simp [ptrView, Heap.write, if_neg (hp a0 rfl)]

theorem wf_elim {o : OpenVPN} {h : Heap} (hwf : o.wf h) :
    ∀ p ∈ o.addrs, ∀ a, p = some a → a < h.next := by
  intro p hp a ha
  subst ha
  have hall := List.all_eq_true.mp hwf _ hp
  simpa [Option.all] using hall

/-- C8: `OpenVPN.copy` dereferences field-by-field to the same values as
the original, allocates only fresh cells disjoint from the original's,
and mutating any pointer or slice field of the copy leaves every
dereferenced field of the original unchanged. -/
theorem claim_C8 (o : OpenVPN) (h : Heap) (hwf : o.wf h) : C8Conclusion o h := by
  have hOrig : ∀ a, o.usesAddr a → a < h.next :=
    fun a ha => wf_elim hwf (some a) ha a rfl
  have bUser : ∀ a, o.User = some a → a < h.next :=
    fun a ha => hOrig a (by simp [OpenVPN.usesAddr, OpenVPN.addrs, ha])
  have bPassword : ∀ a, o.Password = some a → a < h.next :=
    fun a ha => hOrig a (by simp [OpenVPN.usesAddr, OpenVPN.addrs, ha])
  have bConfFile : ∀ a, o.ConfFile = some a → a < h.next :=
    fun a ha => hOrig a (by simp [OpenVPN.usesAddr, OpenVPN.addrs, ha])
  have bCiphers : ∀ a, o.Ciphers = some a → a < h.next :=
    fun a ha => hOrig a (by simp [OpenVPN.usesAddr, OpenVPN.addrs, ha])
  have bAuth : ∀ a, o.Auth = some a → a < h.next :=
    fun a ha => hOrig a (by simp [OpenVPN.usesAddr, OpenVPN.addrs, ha])
  have bCert : ∀ a, o.Cert = some a → a < h.next :=
    fun a ha => hOrig a (by simp [OpenVPN.usesAddr, OpenVPN.addrs, ha])
  have bKey : ∀ a, o.Key = some a → a < h.next :=
    fun a ha => hOrig a (by simp [OpenVPN.usesAddr, OpenVPN.addrs, ha])
  have bEncryptedKey : ∀ a, o.EncryptedKey = some a → a < h.next :=
    fun a ha => hOrig a (by simp [OpenVPN.usesAddr, OpenVPN.addrs, ha])
  have bKeyPassphrase : ∀ a, o.KeyPassphrase = some a → a < h.next :=
    fun a ha => hOrig a (by simp [OpenVPN.usesAddr, OpenVPN.addrs, ha])
  have bPIAEncPreset : ∀ a, o.PIAEncPreset = some a → a < h.next :=
    fun a ha => hOrig a (by simp [OpenVPN.usesAddr, OpenVPN.addrs, ha])
  have bMSSFix : ∀ a, o.MSSFix = some a → a < h.next :=
    fun a ha => hOrig a (by simp [OpenVPN.usesAddr, OpenVPN.addrs, ha])
  have bVerbosity : ∀ a, o.Verbosity = some a → a < h.next :=
    fun a ha => hOrig a (by simp [OpenVPN.usesAddr, OpenVPN.addrs, ha])
  have bFlags : ∀ a, o.Flags = some a → a < h.next :=
    fun a ha => hOrig a (by simp [OpenVPN.usesAddr, OpenVPN.addrs, ha])
  set q1 := (CopyPointer o.User h).1
  set s1 := (CopyPointer o.User h).2
  set q2 := (CopyPointer o.Password s1).1
  set s2 := (CopyPointer o.Password s1).2
  set q3 := (CopyPointer o.ConfFile s2).1
  set s3 := (CopyPointer o.ConfFile s2).2
  set q4 := (CopySlice o.Ciphers s3).1
  set s4 := (CopySlice o.Ciphers s3).2
  set q5 := (CopyPointer o.Auth s4).1
  set s5 := (CopyPointer o.Auth s4).2
  set q6 := (CopyPointer o.Cert s5).1
  set s6 := (CopyPointer o.Cert s5).2
  set q7 := (CopyPointer o.Key s6).1
  set s7 := (CopyPointer o.Key s6).2
  set q8 := (CopyPointer o.EncryptedKey s7).1
  set s8 := (CopyPointer o.EncryptedKey s7).2
  set q9 := (CopyPointer o.KeyPassphrase s8).1
  set s9 := (CopyPointer o.KeyPassphrase s8).2
  set q10 := (CopyPointer o.PIAEncPreset s9).1
  set s10 := (CopyPointer o.PIAEncPreset s9).2
  set q11 := (CopyPointer o.MSSFix s10).1
  set s11 := (CopyPointer o.MSSFix s10).2
  set q12 := (CopyPointer o.Verbosity s11).1
  set s12 := (CopyPointer o.Verbosity s11).2
  set q13 := (CopySlice o.Flags s12).1
  set s13 := (CopySlice o.Flags s12).2
  have hc1 : (o.copy h).1 =
      ⟨o.Version, q1, q2, q3, q4, q5, q6, q7, q8, q9, q10, q11,
       o.Interface, o.ProcessUser, q12, q13⟩ := rfl
  have hc2 : (o.copy h).2 = s13 := rfl
  have E1 : s1.Extends h := copyPointer_extends o.User h
  have E2 : s2.Extends s1 := copyPointer_extends o.Password s1
  have E3 : s3.Extends s2 := copyPointer_extends o.ConfFile s2
  have E4 : s4.Extends s3 := copySlice_extends o.Ciphers s3
  have E5 : s5.Extends s4 := copyPointer_extends o.Auth s4
  have E6 : s6.Extends s5 := copyPointer_extends o.Cert s5
  have E7 : s7.Extends s6 := copyPointer_extends o.Key s6
  have E8 : s8.Extends s7 := copyPointer_extends o.EncryptedKey s7
  have E9 : s9.Extends s8 := copyPointer_extends o.KeyPassphrase s8
  have E10 : s10.Extends s9 := copyPointer_extends o.PIAEncPreset s9
  have E11 : s11.Extends s10 := copyPointer_extends o.MSSFix s10
  have E12 : s12.Extends s11 := copyPointer_extends o.Verbosity s11
  have E13 : s13.Extends s12 := copySlice_extends o.Flags s12
  have F1 : s1.Extends h := E1
  have F2 : s2.Extends h := heapExtends_trans E2 F1
  have F3 : s3.Extends h := heapExtends_trans E3 F2
  have F4 : s4.Extends h := heapExtends_trans E4 F3
  have F5 : s5.Extends h := heapExtends_trans E5 F4
  have F6 : s6.Extends h := heapExtends_trans E6 F5
  have F7 : s7.Extends h := heapExtends_trans E7 F6
  have F8 : s8.Extends h := heapExtends_trans E8 F7
  have F9 : s9.Extends h := heapExtends_trans E9 F8
  have F10 : s10.Extends h := heapExtends_trans E10 F9
  have F11 : s11.Extends h := heapExtends_trans E11 F10
  have F12 : s12.Extends h := heapExtends_trans E12 F11
  have F13 : s13.Extends h := heapExtends_trans E13 F12
  have T13 : s13.Extends s13 := heapExtends_refl s13
  have T12 : s13.Extends s12 := E13
  have T11 : s13.Extends s11 := heapExtends_trans T12 E12
  have T10 : s13.Extends s10 := heapExtends_trans T11 E11
  have T9 : s13.Extends s9 := heapExtends_trans T10 E10
  have T8 : s13.Extends s8 := heapExtends_trans T9 E9
  have T7 : s13.Extends s7 := heapExtends_trans T8 E8
  have T6 : s13.Extends s6 := heapExtends_trans T7 E7
  have T5 : s13.Extends s5 := heapExtends_trans T6 E6
  have T4 : s13.Extends s4 := heapExtends_trans T5 E5
  have T3 : s13.Extends s3 := heapExtends_trans T4 E4
  have T2 : s13.Extends s2 := heapExtends_trans T3 E3
  have T1 : s13.Extends s1 := heapExtends_trans T2 E2
  have B1 : ∀ b, q1 = some b → h.next ≤ b ∧ b < s1.next :=
    fun b hb => copyPointer_fresh hb
  have B2 : ∀ b, q2 = some b → s1.next ≤ b ∧ b < s2.next :=
    fun b hb => copyPointer_fresh hb
  have B3 : ∀ b, q3 = some b → s2.next ≤ b ∧ b < s3.next :=
    fun b hb => copyPointer_fresh hb
  have B4 : ∀ b, q4 = some b → s3.next ≤ b ∧ b < s4.next :=
    fun b hb => copySlice_fresh hb
  have B5 : ∀ b, q5 = some b → s4.next ≤ b ∧ b < s5.next :=
    fun b hb => copyPointer_fresh hb
  have B6 : ∀ b, q6 = some b → s5.next ≤ b ∧ b < s6.next :=
    fun b hb => copyPointer_fresh hb
  have B7 : ∀ b, q7 = some b → s6.next ≤ b ∧ b < s7.next :=
    fun b hb => copyPointer_fresh hb
  have B8 : ∀ b, q8 = some b → s7.next ≤ b ∧ b < s8.next :=
    fun b hb => copyPointer_fresh hb
  have B9 : ∀ b, q9 = some b → s8.next ≤ b ∧ b < s9.next :=
    fun b hb => copyPointer_fresh hb
  have B10 : ∀ b, q10 = some b → s9.next ≤ b ∧ b < s10.next :=
    fun b hb => copyPointer_fresh hb
  have B11 : ∀ b, q11 = some b → s10.next ≤ b ∧ b < s11.next :=
    fun b hb => copyPointer_fresh hb
  have B12 : ∀ b, q12 = some b → s11.next ≤ b ∧ b < s12.next :=
    fun b hb => copyPointer_fresh hb
  have B13 : ∀ b, q13 = some b → s12.next ≤ b ∧ b < s13.next :=
    fun b hb => copySlice_fresh hb
  have hlow1 : ∀ b, q1 = some b → h.next ≤ b := fun b hb => (B1 b hb).1
  have hlow2 : ∀ b, q2 = some b → h.next ≤ b :=
    fun b hb => Nat.le_trans F1.1 (B2 b hb).1
  have hlow3 : ∀ b, q3 = some b → h.next ≤ b :=
    fun b hb => Nat.le_trans F2.1 (B3 b hb).1
  have hlow4 : ∀ b, q4 = some b → h.next ≤ b :=
    fun b hb => Nat.le_trans F3.1 (B4 b hb).1
  have hlow5 : ∀ b, q5 = some b → h.next ≤ b :=
    fun b hb => Nat.le_trans F4.1 (B5 b hb).1
  have hlow6 : ∀ b, q6 = some b → h.next ≤ b :=
    fun b hb => Nat.le_trans F5.1 (B6 b hb).1
  have hlow7 : ∀ b, q7 = some b → h.next ≤ b :=
    fun b hb => Nat.le_trans F6.1 (B7 b hb).1
  have hlow8 : ∀ b, q8 = some b → h.next ≤ b :=
    fun b hb => Nat.le_trans F7.1 (B8 b hb).1
  have hlow9 : ∀ b, q9 = some b → h.next ≤ b :=
    fun b hb => Nat.le_trans F8.1 (B9 b hb).1
  have hlow10 : ∀ b, q10 = some b → h.next ≤ b :=
    fun b hb => Nat.le_trans F9.1 (B10 b hb).1
  have hlow11 : ∀ b, q11 = some b → h.next ≤ b :=
    fun b hb => Nat.le_trans F10.1 (B11 b hb).1
  have hlow12 : ∀ b, q12 = some b → h.next ≤ b :=
    fun b hb => Nat.le_trans F11.1 (B12 b hb).1
  have hlow13 : ∀ b, q13 = some b → h.next ≤ b :=
    fun b hb => Nat.le_trans F12.1 (B13 b hb).1
  have V1 : ptrView GoVal.asStr s1 q1 = ptrView GoVal.asStr h o.User :=
    copyPointer_view GoVal.asStr h o.User (heapExtends_refl h) bUser
  have V2 : ptrView GoVal.asStr s2 q2 = ptrView GoVal.asStr h o.Password :=
    copyPointer_view GoVal.asStr s1 o.Password F1 bPassword
  have V3 : ptrView GoVal.asStr s3 q3 = ptrView GoVal.asStr h o.ConfFile :=
    copyPointer_view GoVal.asStr s2 o.ConfFile F2 bConfFile
  have V4 : ptrView GoVal.asStrList s4 q4 = ptrView GoVal.asStrList h o.Ciphers :=
    copySlice_view s3 o.Ciphers F3 bCiphers
  have V5 : ptrView GoVal.asStr s5 q5 = ptrView GoVal.asStr h o.Auth :=
    copyPointer_view GoVal.asStr s4 o.Auth F4 bAuth
  have V6 : ptrView GoVal.asStr s6 q6 = ptrView GoVal.asStr h o.Cert :=
    copyPointer_view GoVal.asStr s5 o.Cert F5 bCert
  have V7 : ptrView GoVal.asStr s7 q7 = ptrView GoVal.asStr h o.Key :=
    copyPointer_view GoVal.asStr s6 o.Key F6 bKey
  have V8 : ptrView GoVal.asStr s8 q8 = ptrView GoVal.asStr h o.EncryptedKey :=
    copyPointer_view GoVal.asStr s7 o.EncryptedKey F7 bEncryptedKey
  have V9 : ptrView GoVal.asStr s9 q9 = ptrView GoVal.asStr h o.KeyPassphrase :=
    copyPointer_view GoVal.asStr s8 o.KeyPassphrase F8 bKeyPassphrase
  have V10 : ptrView GoVal.asStr s10 q10 = ptrView GoVal.asStr h o.PIAEncPreset :=
    copyPointer_view GoVal.asStr s9 o.PIAEncPreset F9 bPIAEncPreset
  have V11 : ptrView GoVal.asU16 s11 q11 = ptrView GoVal.asU16 h o.MSSFix :=
    copyPointer_view GoVal.asU16 s10 o.MSSFix F10 bMSSFix
  have V12 : ptrView GoVal.asInt s12 q12 = ptrView GoVal.asInt h o.Verbosity :=
    copyPointer_view GoVal.asInt s11 o.Verbosity F11 bVerbosity
  have V13 : ptrView GoVal.asStrList s13 q13 = ptrView GoVal.asStrList h o.Flags :=
    copySlice_view s12 o.Flags F12 bFlags
  have W1 : ptrView GoVal.asStr s13 q1 = ptrView GoVal.asStr h o.User := by
    rw [ptrView_extends GoVal.asStr T1 q1 (fun a ha => (B1 a ha).2)]
    exact V1
  have W2 : ptrView GoVal.asStr s13 q2 = ptrView GoVal.asStr h o.Password := by
    rw [ptrView_extends GoVal.asStr T2 q2 (fun a ha => (B2 a ha).2)]
    exact V2
  have W3 : ptrView GoVal.asStr s13 q3 = ptrView GoVal.asStr h o.ConfFile := by
    rw [ptrView_extends GoVal.asStr T3 q3 (fun a ha => (B3 a ha).2)]
    exact V3
  have W4 : ptrView GoVal.asStrList s13 q4 = ptrView GoVal.asStrList h o.Ciphers := by
    rw [ptrView_extends GoVal.asStrList T4 q4 (fun a ha => (B4 a ha).2)]
    exact V4
  have W5 : ptrView GoVal.asStr s13 q5 = ptrView GoVal.asStr h o.Auth := by
    rw [ptrView_extends GoVal.asStr T5 q5 (fun a ha => (B5 a ha).2)]
    exact V5
  have W6 : ptrView GoVal.asStr s13 q6 = ptrView GoVal.asStr h o.Cert := by
    rw [ptrView_extends GoVal.asStr T6 q6 (fun a ha => (B6 a ha).2)]
    exact V6
  have W7 : ptrView GoVal.asStr s13 q7 = ptrView GoVal.asStr h o.Key := by
    rw [ptrView_extends GoVal.asStr T7 q7 (fun a ha => (B7 a ha).2)]
    exact V7
  have W8 : ptrView GoVal.asStr s13 q8 = ptrView GoVal.asStr h o.EncryptedKey := by
    rw [ptrView_extends GoVal.asStr T8 q8 (fun a ha => (B8 a ha).2)]
    exact V8
  have W9 : ptrView GoVal.asStr s13 q9 = ptrView GoVal.asStr h o.KeyPassphrase := by
    rw [ptrView_extends GoVal.asStr T9 q9 (fun a ha => (B9 a ha).2)]
    exact V9
  have W10 : ptrView GoVal.asStr s13 q10 = ptrView GoVal.asStr h o.PIAEncPreset := by
    rw [ptrView_extends GoVal.asStr T10 q10 (fun a ha => (B10 a ha).2)]
    exact V10
  have W11 : ptrView GoVal.asU16 s13 q11 = ptrView GoVal.asU16 h o.MSSFix := by
    rw [ptrView_extends GoVal.asU16 T11 q11 (fun a ha => (B11 a ha).2)]
    exact V11
  have W12 : ptrView GoVal.asInt s13 q12 = ptrView GoVal.asInt h o.Verbosity := by
    rw [ptrView_extends GoVal.asInt T12 q12 (fun a ha => (B12 a ha).2)]
    exact V12
  have W13 : ptrView GoVal.asStrList s13 q13 = ptrView GoVal.asStrList h o.Flags := by
    rw [ptrView_extends GoVal.asStrList T13 q13 (fun a ha => (B13 a ha).2)]
    exact V13
  have hbig : ∀ a, OpenVPN.usesAddr
      ⟨o.Version, q1, q2, q3, q4, q5, q6, q7, q8, q9, q10, q11,
       o.Interface, o.ProcessUser, q12, q13⟩ a → h.next ≤ a := by
    intro a hc
    simp only [OpenVPN.usesAddr, OpenVPN.addrs, List.mem_cons,
      List.not_mem_nil, or_false] at hc
    rcases hc with hcc | hcc | hcc | hcc | hcc | hcc | hcc | hcc | hcc | hcc | hcc | hcc | hcc
    · exact hlow1 a hcc.symm
    · exact hlow2 a hcc.symm
    · exact hlow3 a hcc.symm
    · exact hlow4 a hcc.symm
    · exact hlow5 a hcc.symm
    · exact hlow6 a hcc.symm
    · exact hlow7 a hcc.symm
    · exact hlow8 a hcc.symm
    · exact hlow9 a hcc.symm
    · exact hlow10 a hcc.symm
    · exact hlow11 a hcc.symm
    · exact hlow12 a hcc.symm
    · exact hlow13 a hcc.symm
  unfold C8Conclusion
  refine ⟨?_, ?_, ?_, ?_⟩
  · rw [hc1, hc2]
    simp only [OpenVPN.view, OpenVPNView.mk.injEq]
    exact ⟨trivial, W1, W2, W3, W4, W5, W6, W7, W8, W9, W10, W11, trivial, trivial, W12, W13⟩
  · rw [hc2]
    simp only [OpenVPN.view, OpenVPNView.mk.injEq]
    exact ⟨trivial,
      ptrView_extends GoVal.asStr F13 o.User bUser,
      ptrView_extends GoVal.asStr F13 o.Password bPassword,
      ptrView_extends GoVal.asStr F13 o.ConfFile bConfFile,
      ptrView_extends GoVal.asStrList F13 o.Ciphers bCiphers,
      ptrView_extends GoVal.asStr F13 o.Auth bAuth,
      ptrView_extends GoVal.asStr F13 o.Cert bCert,
      ptrView_extends GoVal.asStr F13 o.Key bKey,
      ptrView_extends GoVal.asStr F13 o.EncryptedKey bEncryptedKey,
      ptrView_extends GoVal.asStr F13 o.KeyPassphrase bKeyPassphrase,
      ptrView_extends GoVal.asStr F13 o.PIAEncPreset bPIAEncPreset,
      ptrView_extends GoVal.asU16 F13 o.MSSFix bMSSFix,
      trivial, trivial,
      ptrView_extends GoVal.asInt F13 o.Verbosity bVerbosity,
      ptrView_extends GoVal.asStrList F13 o.Flags bFlags⟩
  · intro a hc
    rw [hc1] at hc
    intro ho
    have hlt := hOrig a ho
    have hge := hbig a hc
    omega
  · intro a v hc
    rw [hc1] at hc
    have ha := hbig a hc
    rw [hc2]
    have hne : ∀ (p : Option Nat), (∀ b, p = some b → b < h.next) →
        ∀ a0, p = some a0 → a0 ≠ a := by
      intro p hp a0 h0
      have := hp a0 h0
      omega
    simp only [OpenVPN.view, OpenVPNView.mk.injEq]
    exact ⟨trivial,
      ptrView_write GoVal.asStr s13 a v o.User (hne o.User bUser),
      ptrView_write GoVal.asStr s13 a v o.Password (hne o.Password bPassword),
      ptrView_write GoVal.asStr s13 a v o.ConfFile (hne o.ConfFile bConfFile),
      ptrView_write GoVal.asStrList s13 a v o.Ciphers (hne o.Ciphers bCiphers),
      ptrView_write GoVal.asStr s13 a v o.Auth (hne o.Auth bAuth),
      ptrView_write GoVal.asStr s13 a v o.Cert (hne o.Cert bCert),
      ptrView_write GoVal.asStr s13 a v o.Key (hne o.Key bKey),
      ptrView_write GoVal.asStr s13 a v o.EncryptedKey (hne o.EncryptedKey bEncryptedKey),
      ptrView_write GoVal.asStr s13 a v o.KeyPassphrase (hne o.KeyPassphrase bKeyPassphrase),
      ptrView_write GoVal.asStr s13 a v o.PIAEncPreset (hne o.PIAEncPreset bPIAEncPreset),
      ptrView_write GoVal.asU16 s13 a v o.MSSFix (hne o.MSSFix bMSSFix),
      trivial, trivial,
      ptrView_write GoVal.asInt s13 a v o.Verbosity (hne o.Verbosity bVerbosity),
      ptrView_write GoVal.asStrList s13 a v o.Flags (hne o.Flags bFlags)⟩

/-- C8 witness: the theorem applied to a concrete settings value and
heap. -/
theorem claim_C8_witness : oC8W.wf heapW ∧ C8Conclusion oC8W heapW :=
  ⟨rfl, claim_C8 oC8W heapW rfl⟩

theorem setDefaults_of_allSet (o : OpenVPN) (p : String) (h : Heap)
    (hv : o.Version ≠ "") (hu : o.User.isSome = true)
    (hpw : o.Password.isSome = true) (hcf : o.ConfFile.isSome = true)
    (hau : o.Auth.isSome = true) (hce : o.Cert.isSome = true)
    (hk : o.Key.isSome = true) (hek : o.EncryptedKey.isSome = true)
    (hkp : o.KeyPassphrase.isSome = true) (hpia : o.PIAEncPreset.isSome = true)
    (hms : o.MSSFix.isSome = true) (hi : o.Interface ≠ "")
    (hpu : o.ProcessUser ≠ "") (hvb : o.Verbosity.isSome = true) :
    o.setDefaults p h = (o, h) := by
  obtain ⟨u, hu2⟩ := Option.isSome_iff_exists.mp hu
  obtain ⟨pw, hpw2⟩ := Option.isSome_iff_exists.mp hpw
  obtain ⟨cf, hcf2⟩ := Option.isSome_iff_exists.mp hcf
  obtain ⟨au, hau2⟩ := Option.isSome_iff_exists.mp hau
  obtain ⟨ce, hce2⟩ := Option.isSome_iff_exists.mp hce
  obtain ⟨k, hk2⟩ := Option.isSome_iff_exists.mp hk
  obtain ⟨ek, hek2⟩ := Option.isSome_iff_exists.mp hek
  obtain ⟨kp, hkp2⟩ := Option.isSome_iff_exists.mp hkp
  obtain ⟨pia, hpia2⟩ := Option.isSome_iff_exists.mp hpia
  obtain ⟨ms, hms2⟩ := Option.isSome_iff_exists.mp hms
  obtain ⟨vb, hvb2⟩ := Option.isSome_iff_exists.mp hvb
  simp only [OpenVPN.setDefaults, hu2, hpw2, hcf2, hau2, hce2, hk2, hek2,
    hkp2, hpia2, hms2, hvb2]
  simp only [DefaultPointer]
  simp only [ite_self]
  rw [defaultString_of_ne hv, defaultString_of_ne hi, defaultString_of_ne hpu]
  rw [← hu2, ← hpw2, ← hcf2, ← hau2, ← hce2, ← hk2, ← hek2, ← hkp2, ← hpia2,
    ← hms2, ← hvb2]

/-- C9: `OpenVPN.setDefaults` is idempotent (same settings and same heap
on a second application) and frame-preserving: non-empty strings keep
their value, non-nil pointers keep their address with the pointed-to cell
unchanged, and the untouched slice fields are preserved. -/
theorem claim_C9 (o : OpenVPN) (vpnProvider : String) (h : Heap) (hwf : o.wf h) :
    C9Conclusion o vpnProvider h := by
  have hOrig : ∀ a, o.usesAddr a → a < h.next :=
    fun a ha => wf_elim hwf (some a) ha a rfl
  set d1 := DefaultPointer o.User (GoVal.str "") h with hd1
  set d2 := if vpnProvider == providerMullvad then
      DefaultPointer o.Password (GoVal.str "m") d1.2
    else DefaultPointer o.Password (GoVal.str "") d1.2 with hd2
  set d3 := DefaultPointer o.ConfFile (GoVal.str "") d2.2 with hd3
  set d4 := DefaultPointer o.Auth (GoVal.str "") d3.2 with hd4
  set d5 := DefaultPointer o.Cert (GoVal.str "") d4.2 with hd5
  set d6 := DefaultPointer o.Key (GoVal.str "") d5.2 with hd6
  set d7 := DefaultPointer o.EncryptedKey (GoVal.str "") d6.2 with hd7
  set d8 := DefaultPointer o.KeyPassphrase (GoVal.str "") d7.2 with hd8
  set d9 := DefaultPointer o.PIAEncPreset
    (GoVal.str (if vpnProvider == providerPIA then presetStrong else "")) d8.2 with hd9
  set d10 := DefaultPointer o.MSSFix (GoVal.u16 0) d9.2 with hd10
  set d11 := DefaultPointer o.Verbosity (GoVal.int 1) d10.2 with hd11
  have hsd : o.setDefaults vpnProvider h =
      (⟨DefaultString o.Version Openvpn25, d1.1, d2.1, d3.1, o.Ciphers, d4.1,
        d5.1, d6.1, d7.1, d8.1, d9.1, d10.1, DefaultString o.Interface "tun0",
        DefaultString o.ProcessUser "root", d11.1, o.Flags⟩, d11.2) := rfl
  have X1 : d1.2.Extends h := defaultPointer_extends o.User (GoVal.str "") h
  have X2 : d2.2.Extends d1.2 := by
    rw [hd2]
    split
    · exact defaultPointer_extends o.Password (GoVal.str "m") d1.2
    · exact defaultPointer_extends o.Password (GoVal.str "") d1.2
  have X3 : d3.2.Extends d2.2 := defaultPointer_extends o.ConfFile (GoVal.str "") d2.2
  have X4 : d4.2.Extends d3.2 := defaultPointer_extends o.Auth (GoVal.str "") d3.2
  have X5 : d5.2.Extends d4.2 := defaultPointer_extends o.Cert (GoVal.str "") d4.2
  have X6 : d6.2.Extends d5.2 := defaultPointer_extends o.Key (GoVal.str "") d5.2
  have X7 : d7.2.Extends d6.2 :=
    defaultPointer_extends o.EncryptedKey (GoVal.str "") d6.2
  have X8 : d8.2.Extends d7.2 :=
    defaultPointer_extends o.KeyPassphrase (GoVal.str "") d7.2
  have X9 : d9.2.Extends d8.2 := defaultPointer_extends o.PIAEncPreset _ d8.2
  have X10 : d10.2.Extends d9.2 := defaultPointer_extends o.MSSFix (GoVal.u16 0) d9.2
  have X11 : d11.2.Extends d10.2 :=
    defaultPointer_extends o.Verbosity (GoVal.int 1) d10.2
  have Y2 : d2.2.Extends h := heapExtends_trans X2 X1
  have Y3 : d3.2.Extends h := heapExtends_trans X3 Y2
  have Y4 : d4.2.Extends h := heapExtends_trans X4 Y3
  have Y5 : d5.2.Extends h := heapExtends_trans X5 Y4
  have Y6 : d6.2.Extends h := heapExtends_trans X6 Y5
  have Y7 : d7.2.Extends h := heapExtends_trans X7 Y6
  have Y8 : d8.2.Extends h := heapExtends_trans X8 Y7
  have Y9 : d9.2.Extends h := heapExtends_trans X9 Y8
  have Y10 : d10.2.Extends h := heapExtends_trans X10 Y9
  have Y11 : d11.2.Extends h := heapExtends_trans X11 Y10
  have S1 : d1.1.isSome = true := defaultPointer_isSome o.User (GoVal.str "") h
  have S2 : d2.1.isSome = true := by
    rw [hd2]
    split
    · exact defaultPointer_isSome o.Password (GoVal.str "m") d1.2
    · exact defaultPointer_isSome o.Password (GoVal.str "") d1.2
  have S3 : d3.1.isSome = true := defaultPointer_isSome o.ConfFile (GoVal.str "") d2.2
  have S4 : d4.1.isSome = true := defaultPointer_isSome o.Auth (GoVal.str "") d3.2
  have S5 : d5.1.isSome = true := defaultPointer_isSome o.Cert (GoVal.str "") d4.2
  have S6 : d6.1.isSome = true := defaultPointer_isSome o.Key (GoVal.str "") d5.2
  have S7 : d7.1.isSome = true :=
    defaultPointer_isSome o.EncryptedKey (GoVal.str "") d6.2
  have S8 : d8.1.isSome = true :=
    defaultPointer_isSome o.KeyPassphrase (GoVal.str "") d7.2
  have S9 : d9.1.isSome = true := defaultPointer_isSome o.PIAEncPreset _ d8.2
  have S10 : d10.1.isSome = true := defaultPointer_isSome o.MSSFix (GoVal.u16 0) d9.2
  have S11 : d11.1.isSome = true :=
    defaultPointer_isSome o.Verbosity (GoVal.int 1) d10.2
  unfold C9Conclusion
  refine ⟨?_, ?_, ?_, ?_, ?_, ?_, ?_, ?_, ?_, ?_, ?_, ?_, ?_, ?_, ?_, ?_, ?_, ?_⟩
  · rw [hsd]
    exact setDefaults_of_allSet _ _ _
      (defaultString_ne_empty _ (by decide)) S1 S2 S3 S4 S5 S6 S7 S8 S9 S10
      (defaultString_ne_empty _ (by decide)) (defaultString_ne_empty _ (by decide)) S11
  · intro hv
    rw [hsd]
    exact defaultString_of_ne hv _
  · intro hi
    rw [hsd]
    exact defaultString_of_ne hi _
  · intro hpu
    rw [hsd]
    exact defaultString_of_ne hpu _
  · intro a ha
    rw [hsd]
    exact defaultPointer_keeps ha _ _
  · intro a ha
    rw [hsd]
    show d2.1 = some a
    rw [hd2]
    split
    · exact defaultPointer_keeps ha _ _
    · exact defaultPointer_keeps ha _ _
  · intro a ha
    rw [hsd]
    exact defaultPointer_keeps ha _ _
  · intro a ha
    rw [hsd]
    exact defaultPointer_keeps ha _ _
  · intro a ha
    rw [hsd]
    exact defaultPointer_keeps ha _ _
  · intro a ha
    rw [hsd]
    exact defaultPointer_keeps ha _ _
  · intro a ha
    rw [hsd]
    exact defaultPointer_keeps ha _ _
  · intro a ha
    rw [hsd]
    exact defaultPointer_keeps ha _ _
  · intro a ha
    rw [hsd]
    exact defaultPointer_keeps ha _ _
  · intro a ha
    rw [hsd]
    exact defaultPointer_keeps ha _ _
  · intro a ha
    rw [hsd]
    exact defaultPointer_keeps ha _ _
  · rw [hsd]
  · rw [hsd]
  · intro a ha
    rw [hsd]
    exact Y11.2 a (hOrig a ha)

/-- C9 witness: the theorem applied to a concrete settings value, the
Mullvad provider and a concrete heap. -/
theorem claim_C9_witness : oC9W.wf heapW ∧ C9Conclusion oC9W providerMullvad heapW :=
  ⟨rfl, claim_C9 oC9W providerMullvad heapW rfl⟩

/-- C6: once the checks before the verbosity range pass, `validate`
accepts exactly the verbosity values 0 through 6 and rejects every other
value with the error whose message text states the bounds as 0 to 5. -/
theorem claim_C6 (o : OpenVPN) (vpnProvider : String) (h : Heap) (env : ValidateEnv)
    (_hderef : o.derefFieldsSet)
    (hpre : validateExceptVerbosity o vpnProvider h env = none) :
    C6Conclusion o vpnProvider h env := by
  have hval : validate o vpnProvider h env =
      (if derefInt h o.Verbosity < 0 ∨ derefInt h o.Verbosity > 6 then
        some (SettingsErr.verbosityOutOfBounds verbosityBoundsText) else none) := by
    unfold validate
    rw [hpre]
    simp only [Bool.or_eq_true, decide_eq_true_eq]
  unfold C6Conclusion
  refine ⟨?_, ?_, rfl⟩
  · rw [hval]
    constructor
    · intro hnone
      by_cases hv : derefInt h o.Verbosity < 0 ∨ derefInt h o.Verbosity > 6
      · rw [if_pos hv] at hnone
        cases hnone
      · exact ⟨by omega, by omega⟩
    · intro hb
      rw [if_neg (by omega)]
  · intro hv
    rw [hval, if_pos (by omega)]

/-- C6 witness: the theorem applied to a concrete settings value whose
earlier checks pass and whose verbosity is 3. -/
theorem claim_C6_witness :
    oC6W.derefFieldsSet ∧
    validateExceptVerbosity oC6W "foo" heapW envW = none ∧
    C6Conclusion oC6W "foo" heapW envW :=
  ⟨⟨rfl, rfl, rfl, rfl, rfl, rfl, rfl, rfl, rfl⟩, rfl,
    claim_C6 oC6W "foo" heapW envW ⟨rfl, rfl, rfl, rfl, rfl, rfl, rfl, rfl, rfl⟩ rfl⟩

/-- C10: `FetchServers` propagates a resolver error with a nil server
slice, and otherwise returns the adapted server set sorted by the
`SortableServers` ordering. -/
theorem claim_C10 {Server HostIPs E : Type} (le : Server → Server → Bool)
    (hostsSlice : List String) (resolve : List String → Except E HostIPs)
    (adaptToSlice : HostIPs → List Server)
    (htrans : ∀ a b c, le a b = true → le b c = true → le a c = true)
    (htotal : ∀ a b, le a b = true ∨ le b a = true) :
    C10Conclusion le hostsSlice resolve adaptToSlice := by
  unfold C10Conclusion FetchServers
  constructor
  · intro e he
    rw [he]
  · intro v hv
    rw [hv]
    refine ⟨(adaptToSlice v).mergeSort le, rfl, ?_, ?_⟩
    · exact List.mergeSort_perm (adaptToSlice v) le
    · exact List.sorted_mergeSort htrans
        (fun a b => by rcases htotal a b with hh | hh <;> simp [hh])
        (adaptToSlice v)

/-- C10 witness: the theorem applied to a concrete resolver outcome and
comparison. -/
theorem claim_C10_witness :
    C10Conclusion Nat.ble ["host"] (fun _ => (Except.ok 5 : Except String Nat))
      (fun n => [n, 1]) :=
  claim_C10 Nat.ble ["host"] (fun _ => (Except.ok 5 : Except String Nat))
    (fun n => [n, 1])
    (fun a b c hab hbc => by
      simp only [Nat.ble_eq] at *
      omega)
    (fun a b => by
      simp only [Nat.ble_eq]
      omega)

end Gluetun
